import Mathlib

/-!
Verification development for the f1max racing game's vehicle-dynamics and
track-localization core.

The JavaScript sources are embedded shallowly over `ℚ`:
JavaScript numbers become rationals, and the transcendental library
functions the code calls (`Math.sin`, `Math.cos`, `Math.sqrt`, `Math.acos`,
`Math.atan2`, `Math.PI`, `Math.random`) are packaged in an oracle structure
`RealOps`; theorems quantify over the oracle (adding the bounds on `pi`
a statement needs), so everything proved holds in particular for the real
interpretations, while all definitions stay computable and decidable.

Embedded source files:
 - `src/js/Utils.js`           (`getTrackProperties`)
 - `src/js/CarPhysics.js`      (`updatePhysics`, the "improved" variant)
 - `src/unnamed/part_013`      (`updatePhysics`, the gyro variant)
 - `src/unnamed/part_010`      (`updatePhysics`, the kerb variant)
 - `src/unnamed/part_015`      (`updatePhysics`, the analog variant)
 - `src/unnamed/part_003` / `src/js/GameManager.js` (`handleLapFinish`,
   `checkLapCompletion`)
 - `src/js/TrackBuilder.js`    (`smoothTrackCorners`, `loadTrackDefinition`)
-/

namespace F1Max

/-- THREE.Vector3 with rational components. -/
structure Vec3 where
  x : ℚ
  y : ℚ
  z : ℚ
deriving DecidableEq

/-- Componentwise addition (`Vector3.add`). -/
def Vec3.add (a b : Vec3) : Vec3 := ⟨a.x + b.x, a.y + b.y, a.z + b.z⟩

/-- Componentwise subtraction (`Vector3.sub`). -/
def Vec3.sub (a b : Vec3) : Vec3 := ⟨a.x - b.x, a.y - b.y, a.z - b.z⟩

/-- Scalar multiplication (`Vector3.multiplyScalar`). -/
def Vec3.smul (c : ℚ) (a : Vec3) : Vec3 := ⟨c * a.x, c * a.y, c * a.z⟩

/-- Dot product (`Vector3.dot`). -/
def Vec3.dot (a b : Vec3) : ℚ := a.x * b.x + a.y * b.y + a.z * b.z

/-- Cross product (`Vector3.crossVectors`). -/
def Vec3.cross (a b : Vec3) : Vec3 :=
  ⟨a.y * b.z - a.z * b.y, a.z * b.x - a.x * b.z, a.x * b.y - a.y * b.x⟩

/-- Squared distance (`Vector3.distanceToSquared`). -/
def Vec3.distanceToSquared (a b : Vec3) : ℚ :=
  (a.x - b.x) * (a.x - b.x) + (a.y - b.y) * (a.y - b.y) + (a.z - b.z) * (a.z - b.z)

/-- Linear interpolation toward `b` (`Vector3.lerp`): `this += (v - this) * alpha`. -/
def Vec3.lerp (a b : Vec3) (alpha : ℚ) : Vec3 :=
  ⟨a.x + (b.x - a.x) * alpha, a.y + (b.y - a.y) * alpha, a.z + (b.z - a.z) * alpha⟩

/-- Oracle for the transcendental functions the JavaScript uses.  A field per
library call; theorems quantify over the whole structure. -/
structure RealOps where
  sin : ℚ → ℚ
  cos : ℚ → ℚ
  sqrt : ℚ → ℚ
  acos : ℚ → ℚ
  atan2 : ℚ → ℚ → ℚ
  pi : ℚ
  random : ℚ

/-- `Vector3.normalize`: `divideScalar(this.length() || 1)`, where
`length() = sqrt(lengthSq())`; a zero length falls back to the divisor 1. -/
def Vec3.normalize (ops : RealOps) (v : Vec3) : Vec3 :=
  let len := ops.sqrt (Vec3.dot v v)
  let d := if len = 0 then 1 else len
  ⟨v.x / d, v.y / d, v.z / d⟩

/-- `Math.sign`: 1 for positive, -1 for negative, 0 for zero. -/
def mathSign (q : ℚ) : ℚ := if 0 < q then 1 else if q < 0 then -1 else 0

/-- A THREE.Curve, abstracted to its two query methods used by this core
(`getPointAt`, `getTangentAt`). -/
structure Curve where
  getPointAt : ℚ → Vec3
  getTangentAt : ℚ → Vec3

/-- Keyboard state object: the keys the physics variants read
(`w a s d`, space, and the arrow keys). -/
structure Keys where
  w : Bool
  a : Bool
  s : Bool
  d : Bool
  space : Bool
  arrowup : Bool
  arrowdown : Bool
  arrowleft : Bool
  arrowright : Bool
deriving DecidableEq

/-- The record `getTrackProperties` returns (Utils.js lines 69-75). -/
structure TrackProps where
  lateralDistance : ℚ
  minDistanceSq : ℚ
  binormal : Vec3
  closestPoint : Vec3
  closestT : ℚ
deriving DecidableEq

/-! ### Track localizer: `getTrackProperties`, src/js/Utils.js lines 35-76 -/

/-- The loop `for (let i = -searchRange; i <= searchRange; i += 2)` with
`searchRange = 30` visits the offsets -30, -28, ..., 30 (Utils.js line 41). -/
def windowOffsets : List ℤ := (List.range 31).map (fun k => -30 + 2 * (k : ℤ))

/-- Index correction of Utils.js lines 42-44: a single conditional shift,
`index += divisions` when negative, `index -= divisions` when strictly above
`divisions` (note: an index equal to `divisions` is kept). -/
def wrapIndex (divisions currentI i : ℤ) : ℤ :=
  let index := currentI + i
  if index < 0 then index + divisions
  else if divisions < index then index - divisions
  else index

/-- The candidate parameter examined for offset `i`: `t = index / divisions`
(Utils.js line 46). -/
def candT (divisions currentI i : ℤ) : ℚ :=
  ((wrapIndex divisions currentI i : ℤ) : ℚ) / (divisions : ℚ)

/-- All candidate parameters one `getTrackProperties` call examines. -/
def candidateTs (divisions : ℤ) (lastT : ℚ) : List ℚ :=
  windowOffsets.map (candT divisions ⌊lastT * (divisions : ℚ)⌋)

/-- One iteration of the search loop (Utils.js lines 41-56): the accumulator is
`(closestPointT, minDistanceSq)`, with `none` standing for the initial
`Infinity` (every finite squared distance compares below it). -/
def scanStep (position : Vec3) (curve : Curve) (divisions currentI : ℤ)
    (acc : ℚ × Option ℚ) (i : ℤ) : ℚ × Option ℚ :=
  let t := candT divisions currentI i
  let searchPoint := curve.getPointAt t
  let distanceSq := searchPoint.distanceToSquared position
  match acc.2 with
  | none => (t, some distanceSq)
  | some m => if distanceSq < m then (t, some distanceSq) else acc

/-- `getTrackProperties(position, curve, divisions, lastT)`, Utils.js lines
35-76: windowed closest-point search around `floor(lastT * divisions)`,
then binormal `cross((0,1,0), tangent).normalize()` and signed lateral
distance `(position - closestPoint) . binormal`. -/
def getTrackProperties (ops : RealOps) (position : Vec3) (curve : Curve)
    (divisions : ℤ) (lastT : ℚ) : TrackProps :=
  let currentI : ℤ := ⌊lastT * (divisions : ℚ)⌋
  let r := windowOffsets.foldl (scanStep position curve divisions currentI) (lastT, none)
  let closestPointT := r.1
  let minDistanceSq := r.2.getD 0
  let closestPoint := curve.getPointAt closestPointT
  let tangent := curve.getTangentAt closestPointT
  let binormal := Vec3.normalize ops (Vec3.cross ⟨0, 1, 0⟩ tangent)
  let lateralDistance := Vec3.dot (Vec3.sub position closestPoint) binormal
  ⟨lateralDistance, minDistanceSq, binormal, closestPoint, closestPointT⟩

/-! ### Vehicle state

One record holding the union of the fields the four `updatePhysics` variants
read or write on their `carState` object; each variant touches only its own
fields. -/

structure CarState where
  position : Vec3
  speed : ℚ
  rotationAngle : ℚ
  velocityAngle : ℚ
  currentT : ℚ
  isWrongWay : Bool
  maxSpeed : ℚ
  acceleration : ℚ
  braking : ℚ
  reverseSpeed : ℚ
  friction : ℚ
  handling : ℚ
  grip : ℚ
  maxDriftAngle : ℚ
  isOnKerb : Bool
  kerbEffectTimer : ℚ
  originalHandling : ℚ
  lateralDistance : ℚ
deriving DecidableEq

/-- Angle wrapping by the two loops
`while (x > PI) x -= 2*PI; while (x < -PI) x += 2*PI` (part_013 lines 91-92,
part_010 lines 123-124, part_015 lines 72-73), in closed form.  For `0 < pi`
(true of `Math.PI`) the first loop runs exactly `max 0 ⌈(x - pi)/(2 pi)⌉`
times, leaving `y1 ≤ pi`, and the second exactly `max 0 ⌈(-pi - y1)/(2 pi)⌉`
times, so the closed form below computes the loops' exit value. -/
def normAngle (pi x : ℚ) : ℚ :=
  let k1 : ℤ := max 0 ⌈(x - pi) / (2 * pi)⌉
  let y1 := x - 2 * pi * k1
  let k2 : ℤ := max 0 ⌈(-pi - y1) / (2 * pi)⌉
  y1 + 2 * pi * (k2 : ℚ)

/-- Gyro tuning constants (part_013 lines 22-27 and part_010 lines 28-33). -/
structure GyroTuning where
  handling : ℚ
  maxSteering : ℚ
  deadZone : ℚ
  smoothFactor : ℚ

/-- The module-level `gyroPhysics` object shared by part_013 and part_010. -/
def gyroPhysics : GyroTuning := ⟨13/10, 6/5, 1/20, 1/10⟩

/-- What the gyro/kerb variants return: the mutated state plus the extra
fields of the returned summary object (`turnDirection`, `isGyroSteering`). -/
structure StepOut where
  state : CarState
  turnDirection : ℚ
  isGyroSteering : Bool

/-! ### Gyro variant: `updatePhysics` of src/unnamed/part_013

The definitions below cut the function body at its source statement
boundaries; `updatePhysics` chains them in source order. -/

namespace Gyro

/-- The module-level `carState` of part_013 lines 4-19 (its tunable fields). -/
def carState : CarState where
  position := ⟨0, 0, 0⟩
  speed := 0
  rotationAngle := 0
  velocityAngle := 0
  currentT := 0
  isWrongWay := false
  maxSpeed := 2
  acceleration := 1/40
  braking := 19/20
  reverseSpeed := 1/50
  friction := 197/200
  handling := 1/25
  grip := 19/20
  maxDriftAngle := 0
  isOnKerb := false
  kerbEffectTimer := 0
  originalHandling := 1/25
  lateralDistance := 0

/-- Whether gyro steering is active: `steerValue !== null &&
Math.abs(steerValue) > gyroPhysics.deadZone` (part_013 line 41). -/
def isGyroSteering (steerValue : Option ℚ) : Bool :=
  match steerValue with
  | some v => decide (gyroPhysics.deadZone < |v|)
  | none => false

/-- Turn input selection, part_013 lines 37-52: a gyro value beyond the dead
zone is scaled (`-steerValue * maxSteering`), otherwise the digital keys give
`(a ? 1 : 0) - (d ? 1 : 0)`. -/
def turnDirection (keys : Keys) (steerValue : Option ℚ) : ℚ :=
  match steerValue with
  | some v =>
      if gyroPhysics.deadZone < |v| then -v * gyroPhysics.maxSteering
      else (if keys.a then 1 else 0) - (if keys.d then 1 else 0)
  | none => (if keys.a then 1 else 0) - (if keys.d then 1 else 0)

/-- Heading after the steering block (part_013 lines 54-60): only applied at
nonzero speed, scaled by `handling`, the gyro handling multiplier, and
`speedFactor = min(1, |speed| / 0.5)`. -/
def rotation1 (keys : Keys) (st : CarState) (steerValue : Option ℚ) : ℚ :=
  let handlingMultiplier : ℚ := if isGyroSteering steerValue then gyroPhysics.handling else 1
  if st.speed ≠ 0 then
    st.rotationAngle +
      turnDirection keys steerValue * st.handling * handlingMultiplier *
        min 1 (|st.speed| / (1/2))
  else st.rotationAngle

/-- Speed after throttle/reverse (63-69), hard brake (72-76), friction
(79-81), clamping (84) and the small-speed snap to zero (85-87). -/
def driveSpeed (keys : Keys) (st : CarState) : ℚ :=
  let speed1 :=
    if keys.w then st.speed + st.acceleration
    else if keys.s then (if -(1/2) < st.speed then st.speed - st.reverseSpeed else st.speed)
    else st.speed
  let speed2 := if keys.space ∧ speed1 ≠ 0 then speed1 * st.braking else speed1
  let speed3 := if ¬keys.w ∧ ¬keys.s ∧ ¬keys.space then speed2 * st.friction else speed2
  let speed4 := max (-st.maxSpeed / 2) (min st.maxSpeed speed3)
  if |speed4| < 1/200 then 0 else speed4

/-- Velocity-heading after drift coupling (part_013 lines 90-93):
`velocityAngle += wrap(rotationAngle - velocityAngle) * (1 - grip)`. -/
def velocity1 (ops : RealOps) (keys : Keys) (st : CarState) (steerValue : Option ℚ) : ℚ :=
  st.velocityAngle +
    normAngle ops.pi (rotation1 keys st steerValue - st.velocityAngle) * (1 - st.grip)

/-- Candidate position (part_013 lines 96-97):
`position + (sin(velocityAngle), 0, cos(velocityAngle)) * speed`. -/
def newPosition (ops : RealOps) (keys : Keys) (st : CarState) (steerValue : Option ℚ) : Vec3 :=
  let speed := driveSpeed keys st
  let vel := velocity1 ops keys st steerValue
  Vec3.add st.position ⟨ops.sin vel * speed, 0, ops.cos vel * speed⟩

/-- Localization of the candidate position (part_013 line 100), hinted by the
previous `currentT`. -/
def props (ops : RealOps) (keys : Keys) (st : CarState) (curve : Curve)
    (divisions : ℤ) (steerValue : Option ℚ) : TrackProps :=
  getTrackProperties ops (newPosition ops keys st steerValue) curve divisions st.currentT

/-- The wrong-way dot product (part_013 lines 104-106): car forward vector
`(sin(rotationAngle), 0, cos(rotationAngle))` against the tangent at the
localized parameter. -/
def wrongDot (ops : RealOps) (keys : Keys) (st : CarState) (curve : Curve)
    (divisions : ℤ) (steerValue : Option ℚ) : ℚ :=
  let tangentVector := curve.getTangentAt (props ops keys st curve divisions steerValue).closestT
  Vec3.dot ⟨ops.sin (rotation1 keys st steerValue), 0, ops.cos (rotation1 keys st steerValue)⟩
    tangentVector

/-- `state.isWrongWay = (dot < -0.5 && state.speed > 0.5)` (part_013 line 108). -/
def isWrongWayB (ops : RealOps) (keys : Keys) (st : CarState) (curve : Curve)
    (divisions : ℤ) (steerValue : Option ℚ) : Bool :=
  decide (wrongDot ops keys st curve divisions steerValue < -(1/2)) &&
    decide (1/2 < driveSpeed keys st)

/-- Speed after the wrong-way penalty `speed *= 0.8` (part_013 lines 109-111). -/
def speedAfterWrongWay (ops : RealOps) (keys : Keys) (st : CarState) (curve : Curve)
    (divisions : ℤ) (steerValue : Option ℚ) : ℚ :=
  if isWrongWayB ops keys st curve divisions steerValue then driveSpeed keys st * (4/5)
  else driveSpeed keys st

/-- The boundary test `Math.abs(newProps.lateralDistance) > roadHalfWidth`
(part_013 line 114). -/
def hitBoundary (ops : RealOps) (keys : Keys) (st : CarState) (curve : Curve)
    (divisions : ℤ) (roadHalfWidth : ℚ) (steerValue : Option ℚ) : Bool :=
  decide (roadHalfWidth < |(props ops keys st curve divisions steerValue).lateralDistance|)

/-- The edge point the collision response pushes toward (part_013 lines
116-117): `closestPoint + binormal * (sign(lateral) * (roadHalfWidth - 0.1))`. -/
def clampedPosition (ops : RealOps) (keys : Keys) (st : CarState) (curve : Curve)
    (divisions : ℤ) (roadHalfWidth : ℚ) (steerValue : Option ℚ) : Vec3 :=
  let p := props ops keys st curve divisions steerValue
  let clampedLateral := mathSign p.lateralDistance * (roadHalfWidth - 1/10)
  Vec3.add p.closestPoint (Vec3.smul clampedLateral p.binormal)

/-- Final speed, with the boundary penalty `speed *= 0.95` (part_013 line 115). -/
def finalSpeed (ops : RealOps) (keys : Keys) (st : CarState) (curve : Curve)
    (divisions : ℤ) (roadHalfWidth : ℚ) (steerValue : Option ℚ) : ℚ :=
  if hitBoundary ops keys st curve divisions roadHalfWidth steerValue then
    speedAfterWrongWay ops keys st curve divisions steerValue * (19/20)
  else speedAfterWrongWay ops keys st curve divisions steerValue

/-- Final position (part_013 lines 114-121): on a boundary hit,
`position.lerp(clampedPosition, 0.1)`; otherwise the candidate position. -/
def finalPosition (ops : RealOps) (keys : Keys) (st : CarState) (curve : Curve)
    (divisions : ℤ) (roadHalfWidth : ℚ) (steerValue : Option ℚ) : Vec3 :=
  if hitBoundary ops keys st curve divisions roadHalfWidth steerValue then
    Vec3.lerp st.position (clampedPosition ops keys st curve divisions roadHalfWidth steerValue)
      (1/10)
  else newPosition ops keys st steerValue

/-- `updatePhysics(keys, state, curve, divisions, roadHalfWidth, steerValue)`
of src/unnamed/part_013, lines 36-131, assembled from the stage definitions
above in source order. -/
def updatePhysics (ops : RealOps) (keys : Keys) (st : CarState) (curve : Curve)
    (divisions : ℤ) (roadHalfWidth : ℚ) (steerValue : Option ℚ) : StepOut where
  state :=
    { st with
      position := finalPosition ops keys st curve divisions roadHalfWidth steerValue
      speed := finalSpeed ops keys st curve divisions roadHalfWidth steerValue
      rotationAngle := rotation1 keys st steerValue
      velocityAngle := velocity1 ops keys st steerValue
      currentT := (props ops keys st curve divisions steerValue).closestT
      isWrongWay := isWrongWayB ops keys st curve divisions steerValue }
  turnDirection := turnDirection keys steerValue
  isGyroSteering := isGyroSteering steerValue

/-- Iterated integrator steps with fixed inputs (the fixed-timestep loop
invoking part_013's `updatePhysics` each physics tick). -/
def iterate (ops : RealOps) (keys : Keys) (curve : Curve) (divisions : ℤ)
    (roadHalfWidth : ℚ) (steerValue : Option ℚ) : ℕ → CarState → CarState
  | 0, st => st
  | n + 1, st =>
      iterate ops keys curve divisions roadHalfWidth steerValue n
        (updatePhysics ops keys st curve divisions roadHalfWidth steerValue).state

end Gyro

/-! ### Kerb variant: `updatePhysics` of src/unnamed/part_010 -/

/-- CONFIG.KERB_SLOWDOWN_STRAIGHT (Config.js line 22). -/
def KERB_SLOWDOWN_STRAIGHT : ℚ := 49/50

/-- CONFIG.KERB_SLOWDOWN_TURNING (Config.js line 23). -/
def KERB_SLOWDOWN_TURNING : ℚ := 23/25

/-- CONFIG.KERB_HANDLING_REDUCTION (Config.js line 24). -/
def KERB_HANDLING_REDUCTION : ℚ := 3/10

/-- CONFIG.KERB_EFFECT_DURATION (Config.js line 25). -/
def KERB_EFFECT_DURATION : ℚ := 3/10

namespace Kerb

/-- The module-level `carState` of part_010 lines 5-25. -/
def carState : CarState where
  position := ⟨0, 0, 0⟩
  speed := 0
  rotationAngle := 0
  velocityAngle := 0
  currentT := 0
  isWrongWay := false
  maxSpeed := 2
  acceleration := 1/40
  braking := 19/20
  reverseSpeed := 1/50
  friction := 197/200
  handling := 11/500
  grip := 19/20
  maxDriftAngle := 0
  isOnKerb := false
  kerbEffectTimer := 0
  originalHandling := 1/25
  lateralDistance := 0

/-- `checkKerbCollision(position, roadHalfWidth)` (part_010 lines 43-52),
with the props record's `lateralDistance` passed for the `position` object:
on-kerb when the absolute lateral distance lies in
`[roadHalfWidth, roadHalfWidth + KERB_WIDTH]`, `KERB_WIDTH = 1.5`. -/
def checkKerbCollision (lateralDistance roadHalfWidth : ℚ) : Bool :=
  let kerbWidth : ℚ := 3/2
  let kerbStart := roadHalfWidth
  let kerbEnd := roadHalfWidth + kerbWidth
  let distanceFromCenter := |lateralDistance|
  decide (kerbStart ≤ distanceFromCenter) && decide (distanceFromCenter ≤ kerbEnd)

/-- `getTurningIntensity(turnDirection, speed)` (part_010 lines 55-60). -/
def getTurningIntensity (turnDirection speed : ℚ) : ℚ :=
  if speed < 1/10 then 0
  else min 1 (|turnDirection| * speed / 2)

/-- The kerb-effect countdown block (part_010 lines 77-84): tick the timer
down by 1/60 and, when it runs out, restore `handling` and clear the on-kerb
flag. -/
def tickKerbTimer (st : CarState) : CarState :=
  if 0 < st.kerbEffectTimer then
    let timer := st.kerbEffectTimer - 1/60
    if timer ≤ 0 then
      { st with kerbEffectTimer := timer, handling := st.originalHandling, isOnKerb := false }
    else { st with kerbEffectTimer := timer }
  else st

/-- Whether gyro steering is active (part_010 line 67), as in part_013. -/
def isGyroSteering (steerValue : Option ℚ) : Bool :=
  match steerValue with
  | some v => decide (gyroPhysics.deadZone < |v|)
  | none => false

/-- Turn input selection, part_010 lines 63-74: identical to part_013. -/
def turnDirection (keys : Keys) (steerValue : Option ℚ) : ℚ :=
  match steerValue with
  | some v =>
      if gyroPhysics.deadZone < |v| then -v * gyroPhysics.maxSteering
      else (if keys.a then 1 else 0) - (if keys.d then 1 else 0)
  | none => (if keys.a then 1 else 0) - (if keys.d then 1 else 0)

/-- Heading after the steering block (part_010 lines 86-92), reading the
timer-updated `handling`. -/
def rotation1 (keys : Keys) (st : CarState) (steerValue : Option ℚ) : ℚ :=
  let st1 := tickKerbTimer st
  let handlingMultiplier : ℚ := if isGyroSteering steerValue then gyroPhysics.handling else 1
  if st1.speed ≠ 0 then
    st1.rotationAngle +
      turnDirection keys steerValue * st1.handling * handlingMultiplier *
        min 1 (|st1.speed| / (1/2))
  else st1.rotationAngle

/-- Speed after throttle/reverse, hard brake, friction, clamp and snap
(part_010 lines 94-119); the formulas are those of part_013. -/
def driveSpeed (keys : Keys) (st : CarState) : ℚ :=
  let st1 := tickKerbTimer st
  let speed1 :=
    if keys.w then st1.speed + st1.acceleration
    else if keys.s then (if -(1/2) < st1.speed then st1.speed - st1.reverseSpeed else st1.speed)
    else st1.speed
  let speed2 := if keys.space ∧ speed1 ≠ 0 then speed1 * st1.braking else speed1
  let speed3 := if ¬keys.w ∧ ¬keys.s ∧ ¬keys.space then speed2 * st1.friction else speed2
  let speed4 := max (-st1.maxSpeed / 2) (min st1.maxSpeed speed3)
  if |speed4| < 1/200 then 0 else speed4

/-- Velocity-heading after drift coupling (part_010 lines 121-125). -/
def velocity1 (ops : RealOps) (keys : Keys) (st : CarState) (steerValue : Option ℚ) : ℚ :=
  let st1 := tickKerbTimer st
  st1.velocityAngle +
    normAngle ops.pi (rotation1 keys st steerValue - st1.velocityAngle) * (1 - st1.grip)

/-- Candidate position (part_010 lines 127-129). -/
def newPosition (ops : RealOps) (keys : Keys) (st : CarState) (steerValue : Option ℚ) : Vec3 :=
  let speed := driveSpeed keys st
  let vel := velocity1 ops keys st steerValue
  Vec3.add (tickKerbTimer st).position ⟨ops.sin vel * speed, 0, ops.cos vel * speed⟩

/-- Localization of the candidate position (part_010 line 132). -/
def props (ops : RealOps) (keys : Keys) (st : CarState) (curve : Curve)
    (divisions : ℤ) (steerValue : Option ℚ) : TrackProps :=
  getTrackProperties ops (newPosition ops keys st steerValue) curve divisions
    (tickKerbTimer st).currentT

/-- The wrong-way dot product (part_010 lines 138-141). -/
def wrongDot (ops : RealOps) (keys : Keys) (st : CarState) (curve : Curve)
    (divisions : ℤ) (steerValue : Option ℚ) : ℚ :=
  let tangentVector := curve.getTangentAt (props ops keys st curve divisions steerValue).closestT
  Vec3.dot ⟨ops.sin (rotation1 keys st steerValue), 0, ops.cos (rotation1 keys st steerValue)⟩
    tangentVector

/-- `state.isWrongWay = (dot < -0.5 && state.speed > 0.5)` (part_010 line 143). -/
def isWrongWayB (ops : RealOps) (keys : Keys) (st : CarState) (curve : Curve)
    (divisions : ℤ) (steerValue : Option ℚ) : Bool :=
  decide (wrongDot ops keys st curve divisions steerValue < -(1/2)) &&
    decide (1/2 < driveSpeed keys st)

/-- Speed after the wrong-way penalty `speed *= 0.8` (part_010 lines 144-146). -/
def speedAfterWrongWay (ops : RealOps) (keys : Keys) (st : CarState) (curve : Curve)
    (divisions : ℤ) (steerValue : Option ℚ) : ℚ :=
  if isWrongWayB ops keys st curve divisions steerValue then driveSpeed keys st * (4/5)
  else driveSpeed keys st

/-- On-kerb test for this tick (part_010 line 149). -/
def isOnKerbB (ops : RealOps) (keys : Keys) (st : CarState) (curve : Curve)
    (divisions : ℤ) (roadHalfWidth : ℚ) (steerValue : Option ℚ) : Bool :=
  checkKerbCollision (props ops keys st curve divisions steerValue).lateralDistance roadHalfWidth

/-- The guard of the kerb-effect block (part_010 line 154):
`isOnKerb && state.speed > 0.3`. -/
def kerbActive (ops : RealOps) (keys : Keys) (st : CarState) (curve : Curve)
    (divisions : ℤ) (roadHalfWidth : ℚ) (steerValue : Option ℚ) : Bool :=
  isOnKerbB ops keys st curve divisions roadHalfWidth steerValue &&
    decide (3/10 < speedAfterWrongWay ops keys st curve divisions steerValue)

/-- The turning intensity of the kerb block (part_010 line 155). -/
def turningIntensity (ops : RealOps) (keys : Keys) (st : CarState) (curve : Curve)
    (divisions : ℤ) (steerValue : Option ℚ) : ℚ :=
  getTurningIntensity (turnDirection keys steerValue)
    (speedAfterWrongWay ops keys st curve divisions steerValue)

/-- Speed after the kerb slowdown (part_010 lines 157-161). -/
def speedAfterKerb (ops : RealOps) (keys : Keys) (st : CarState) (curve : Curve)
    (divisions : ℤ) (roadHalfWidth : ℚ) (steerValue : Option ℚ) : ℚ :=
  let s := speedAfterWrongWay ops keys st curve divisions steerValue
  if kerbActive ops keys st curve divisions roadHalfWidth steerValue then
    let ti := turningIntensity ops keys st curve divisions steerValue
    s * (KERB_SLOWDOWN_STRAIGHT + (KERB_SLOWDOWN_TURNING - KERB_SLOWDOWN_STRAIGHT) * ti)
  else s

/-- Handling and timer after the kerb block (part_010 lines 163-167): applied
when first hitting the kerb or turning significantly. -/
def handlingTimerAfterKerb (ops : RealOps) (keys : Keys) (st : CarState) (curve : Curve)
    (divisions : ℤ) (roadHalfWidth : ℚ) (steerValue : Option ℚ) : ℚ × ℚ :=
  let st1 := tickKerbTimer st
  let wasOnKerb := st1.isOnKerb
  let ti := turningIntensity ops keys st curve divisions steerValue
  if kerbActive ops keys st curve divisions roadHalfWidth steerValue ∧
      (¬wasOnKerb ∨ 3/10 < ti) then
    (st1.originalHandling * (1 - KERB_HANDLING_REDUCTION * ti), KERB_EFFECT_DURATION)
  else (st1.handling, st1.kerbEffectTimer)

/-- Heading after the kerb instability nudge (part_010 lines 169-173):
`rotationAngle += (Math.random() - 0.5) * (turningIntensity * 0.02)`. -/
def rotation2 (ops : RealOps) (keys : Keys) (st : CarState) (curve : Curve)
    (divisions : ℤ) (roadHalfWidth : ℚ) (steerValue : Option ℚ) : ℚ :=
  let ti := turningIntensity ops keys st curve divisions steerValue
  if kerbActive ops keys st curve divisions roadHalfWidth steerValue ∧ 1/2 < ti then
    rotation1 keys st steerValue + (ops.random - 1/2) * (ti * (1/50))
  else rotation1 keys st steerValue

/-- The off-track test (part_010 line 177):
`Math.abs(newProps.lateralDistance) > roadHalfWidth + 1.5` (beyond the kerbs). -/
def hitBoundary (ops : RealOps) (keys : Keys) (st : CarState) (curve : Curve)
    (divisions : ℤ) (roadHalfWidth : ℚ) (steerValue : Option ℚ) : Bool :=
  decide (roadHalfWidth + 3/2 < |(props ops keys st curve divisions steerValue).lateralDistance|)

/-- The edge point the collision response pushes toward (part_010 lines
179-180). -/
def clampedPosition (ops : RealOps) (keys : Keys) (st : CarState) (curve : Curve)
    (divisions : ℤ) (roadHalfWidth : ℚ) (steerValue : Option ℚ) : Vec3 :=
  let p := props ops keys st curve divisions steerValue
  let clampedLateral := mathSign p.lateralDistance * (roadHalfWidth - 1/10)
  Vec3.add p.closestPoint (Vec3.smul clampedLateral p.binormal)

/-- Final speed, with the boundary penalty `speed *= 0.95` (part_010 line 178). -/
def finalSpeed (ops : RealOps) (keys : Keys) (st : CarState) (curve : Curve)
    (divisions : ℤ) (roadHalfWidth : ℚ) (steerValue : Option ℚ) : ℚ :=
  if hitBoundary ops keys st curve divisions roadHalfWidth steerValue then
    speedAfterKerb ops keys st curve divisions roadHalfWidth steerValue * (19/20)
  else speedAfterKerb ops keys st curve divisions roadHalfWidth steerValue

/-- Final position (part_010 lines 177-184): on a hit,
`position.lerp(clampedPosition, 0.1)` (smooth push back); otherwise the
candidate position. -/
def finalPosition (ops : RealOps) (keys : Keys) (st : CarState) (curve : Curve)
    (divisions : ℤ) (roadHalfWidth : ℚ) (steerValue : Option ℚ) : Vec3 :=
  if hitBoundary ops keys st curve divisions roadHalfWidth steerValue then
    Vec3.lerp (tickKerbTimer st).position
      (clampedPosition ops keys st curve divisions roadHalfWidth steerValue) (1/10)
  else newPosition ops keys st steerValue

/-- `updatePhysics(keys, state, curve, divisions, roadHalfWidth, steerValue)`
of src/unnamed/part_010, lines 62-195, assembled from the stage definitions
above in source order. -/
def updatePhysics (ops : RealOps) (keys : Keys) (st : CarState) (curve : Curve)
    (divisions : ℤ) (roadHalfWidth : ℚ) (steerValue : Option ℚ) : StepOut where
  state :=
    { tickKerbTimer st with
      position := finalPosition ops keys st curve divisions roadHalfWidth steerValue
      speed := finalSpeed ops keys st curve divisions roadHalfWidth steerValue
      rotationAngle := rotation2 ops keys st curve divisions roadHalfWidth steerValue
      velocityAngle := velocity1 ops keys st steerValue
      currentT := (props ops keys st curve divisions steerValue).closestT
      lateralDistance := (props ops keys st curve divisions steerValue).lateralDistance
      isWrongWay := isWrongWayB ops keys st curve divisions steerValue
      isOnKerb := isOnKerbB ops keys st curve divisions roadHalfWidth steerValue
      handling := (handlingTimerAfterKerb ops keys st curve divisions roadHalfWidth steerValue).1
      kerbEffectTimer :=
        (handlingTimerAfterKerb ops keys st curve divisions roadHalfWidth steerValue).2 }
  turnDirection := turnDirection keys steerValue
  isGyroSteering := isGyroSteering steerValue

end Kerb

/-! ### Analog variant: `updatePhysics` of src/unnamed/part_015 -/

namespace Analog

/-- The module-level `carState` of part_015 lines 4-19. -/
def carState : CarState where
  position := ⟨0, 0, 0⟩
  speed := 0
  rotationAngle := 0
  velocityAngle := 0
  currentT := 0
  isWrongWay := false
  maxSpeed := 2
  acceleration := 1/40
  braking := 19/20
  reverseSpeed := 1/50
  friction := 197/200
  handling := 1/25
  grip := 19/20
  maxDriftAngle := 0
  isOnKerb := false
  kerbEffectTimer := 0
  originalHandling := 1/25
  lateralDistance := 0

/-- Turn input selection, part_015 lines 29-36: any non-null analog value is
used directly (`-steerValue`); otherwise the digital keys. -/
def turnDirection (keys : Keys) (steerValue : Option ℚ) : ℚ :=
  match steerValue with
  | some v => -v
  | none => (if keys.a then 1 else 0) - (if keys.d then 1 else 0)

/-- Heading after the steering block (part_015 lines 38-41). -/
def rotation1 (keys : Keys) (st : CarState) (steerValue : Option ℚ) : ℚ :=
  if st.speed ≠ 0 then
    st.rotationAngle +
      turnDirection keys steerValue * st.handling * min 1 (|st.speed| / (1/2))
  else st.rotationAngle

/-- Speed after throttle/reverse, brake, friction, clamp and snap (part_015
lines 43-68); the formulas are those of part_013. -/
def driveSpeed (keys : Keys) (st : CarState) : ℚ :=
  let speed1 :=
    if keys.w then st.speed + st.acceleration
    else if keys.s then (if -(1/2) < st.speed then st.speed - st.reverseSpeed else st.speed)
    else st.speed
  let speed2 := if keys.space ∧ speed1 ≠ 0 then speed1 * st.braking else speed1
  let speed3 := if ¬keys.w ∧ ¬keys.s ∧ ¬keys.space then speed2 * st.friction else speed2
  let speed4 := max (-st.maxSpeed / 2) (min st.maxSpeed speed3)
  if |speed4| < 1/200 then 0 else speed4

/-- Velocity-heading after drift coupling (part_015 lines 71-74). -/
def velocity1 (ops : RealOps) (keys : Keys) (st : CarState) (steerValue : Option ℚ) : ℚ :=
  st.velocityAngle +
    normAngle ops.pi (rotation1 keys st steerValue - st.velocityAngle) * (1 - st.grip)

/-- Candidate position (part_015 lines 76-77). -/
def newPosition (ops : RealOps) (keys : Keys) (st : CarState) (steerValue : Option ℚ) : Vec3 :=
  let speed := driveSpeed keys st
  let vel := velocity1 ops keys st steerValue
  Vec3.add st.position ⟨ops.sin vel * speed, 0, ops.cos vel * speed⟩

/-- Localization of the candidate position (part_015 line 79). -/
def props (ops : RealOps) (keys : Keys) (st : CarState) (curve : Curve)
    (divisions : ℤ) (steerValue : Option ℚ) : TrackProps :=
  getTrackProperties ops (newPosition ops keys st steerValue) curve divisions st.currentT

/-- The wrong-way dot product (part_015 lines 82-84). -/
def wrongDot (ops : RealOps) (keys : Keys) (st : CarState) (curve : Curve)
    (divisions : ℤ) (steerValue : Option ℚ) : ℚ :=
  let tangentVector := curve.getTangentAt (props ops keys st curve divisions steerValue).closestT
  Vec3.dot ⟨ops.sin (rotation1 keys st steerValue), 0, ops.cos (rotation1 keys st steerValue)⟩
    tangentVector

/-- `state.isWrongWay = (dot < -0.5 && state.speed > 0.5)` (part_015 line 86). -/
def isWrongWayB (ops : RealOps) (keys : Keys) (st : CarState) (curve : Curve)
    (divisions : ℤ) (steerValue : Option ℚ) : Bool :=
  decide (wrongDot ops keys st curve divisions steerValue < -(1/2)) &&
    decide (1/2 < driveSpeed keys st)

/-- Speed after the wrong-way penalty `speed *= 0.8` (part_015 line 87). -/
def speedAfterWrongWay (ops : RealOps) (keys : Keys) (st : CarState) (curve : Curve)
    (divisions : ℤ) (steerValue : Option ℚ) : ℚ :=
  if isWrongWayB ops keys st curve divisions steerValue then driveSpeed keys st * (4/5)
  else driveSpeed keys st

/-- The boundary test (part_015 line 89):
`Math.abs(newProps.lateralDistance) > roadHalfWidth`. -/
def hitBoundary (ops : RealOps) (keys : Keys) (st : CarState) (curve : Curve)
    (divisions : ℤ) (roadHalfWidth : ℚ) (steerValue : Option ℚ) : Bool :=
  decide (roadHalfWidth < |(props ops keys st curve divisions steerValue).lateralDistance|)

/-- The hard-clamped edge position (part_015 lines 91-92):
`closestPoint + binormal * (sign(lateral) * (roadHalfWidth - 0.1))`. -/
def clampedPosition (ops : RealOps) (keys : Keys) (st : CarState) (curve : Curve)
    (divisions : ℤ) (roadHalfWidth : ℚ) (steerValue : Option ℚ) : Vec3 :=
  let p := props ops keys st curve divisions steerValue
  let clampedLateral := mathSign p.lateralDistance * (roadHalfWidth - 1/10)
  Vec3.add p.closestPoint (Vec3.smul clampedLateral p.binormal)

/-- Final speed, with the boundary penalty `speed *= 0.5` (part_015 line 90). -/
def finalSpeed (ops : RealOps) (keys : Keys) (st : CarState) (curve : Curve)
    (divisions : ℤ) (roadHalfWidth : ℚ) (steerValue : Option ℚ) : ℚ :=
  if hitBoundary ops keys st curve divisions roadHalfWidth steerValue then
    speedAfterWrongWay ops keys st curve divisions steerValue * (1/2)
  else speedAfterWrongWay ops keys st curve divisions steerValue

/-- Final position (part_015 lines 89-96): on a hit, the position is hard
clamped (`position.copy(clampedPosition)`); otherwise the candidate position. -/
def finalPosition (ops : RealOps) (keys : Keys) (st : CarState) (curve : Curve)
    (divisions : ℤ) (roadHalfWidth : ℚ) (steerValue : Option ℚ) : Vec3 :=
  if hitBoundary ops keys st curve divisions roadHalfWidth steerValue then
    clampedPosition ops keys st curve divisions roadHalfWidth steerValue
  else newPosition ops keys st steerValue

/-- `updatePhysics(keys, state, curve, divisions, roadHalfWidth, steerValue)`
of src/unnamed/part_015, lines 27-104, assembled from the stage definitions
above in source order. -/
def updatePhysics (ops : RealOps) (keys : Keys) (st : CarState) (curve : Curve)
    (divisions : ℤ) (roadHalfWidth : ℚ) (steerValue : Option ℚ) : CarState :=
  { st with
    position := finalPosition ops keys st curve divisions roadHalfWidth steerValue
    speed := finalSpeed ops keys st curve divisions roadHalfWidth steerValue
    rotationAngle := rotation1 keys st steerValue
    velocityAngle := velocity1 ops keys st steerValue
    currentT := (props ops keys st curve divisions steerValue).closestT
    isWrongWay := isWrongWayB ops keys st curve divisions steerValue }

end Analog

/-! ### Improved variant: `updatePhysics` of src/js/CarPhysics.js -/

namespace Improved

/-- The module-level `carState` of CarPhysics.js lines 5-21. -/
def carState : CarState where
  position := ⟨0, 0, 0⟩
  speed := 0
  rotationAngle := 0
  velocityAngle := 0
  currentT := 0
  isWrongWay := false
  maxSpeed := 2
  acceleration := 7/200
  braking := 7/100
  reverseSpeed := 0
  friction := 1/100
  handling := 7/200
  grip := 17/20
  maxDriftAngle := 0
  isOnKerb := false
  kerbEffectTimer := 0
  originalHandling := 7/200
  lateralDistance := 0

/-- Speed after the input and friction/clamp block of CarPhysics.js lines
40-58: additive throttle/brake delta, subtractive friction (tripled by the
space handbrake), then a sign-dependent clamp to `[0, maxSpeed]` or
`[-maxSpeed * 0.5, 0]`. -/
def newSpeed (keys : Keys) (st : CarState) : ℚ :=
  let inputDelta :=
    (if keys.arrowup ∨ keys.w then st.acceleration else 0) +
      (if keys.arrowdown ∨ keys.s then -st.braking else 0)
  let handbrakeMultiplier : ℚ := if keys.space then 3 else 1
  let friction := st.friction * handbrakeMultiplier
  let sp0 := st.speed + inputDelta
  if 0 < sp0 then min st.maxSpeed (max 0 (sp0 - friction))
  else if sp0 < 0 then max (-st.maxSpeed * (1/2)) (min 0 (sp0 + friction))
  else sp0

/-- Heading after the steering block (CarPhysics.js lines 60-71): only at
`|speed| > 0.001`, turning by `handling * (1 - |speed| / maxSpeed * 0.6)`
signed by the travel direction; the speed read here is the already-updated
one. -/
def rotation1 (keys : Keys) (st : CarState) : ℚ :=
  let sp1 := newSpeed keys st
  if 1/1000 < |sp1| then
    let effectiveTurnSpeed := st.handling * (1 - |sp1| / st.maxSpeed * (3/5))
    let steerDirection := mathSign sp1
    let r0 :=
      if keys.arrowleft ∨ keys.a then st.rotationAngle - effectiveTurnSpeed * steerDirection
      else st.rotationAngle
    if keys.arrowright ∨ keys.d then r0 + effectiveTurnSpeed * steerDirection else r0
  else st.rotationAngle

/-- The drift difference (CarPhysics.js lines 74-77): two conditional `2*pi`
shifts, then the `maxDriftAngle` clamp. -/
def rotationDiff (ops : RealOps) (keys : Keys) (st : CarState) : ℚ :=
  let rotationDiff0 := rotation1 keys st - st.velocityAngle
  let rotationDiff1 := if ops.pi < rotationDiff0 then rotationDiff0 - ops.pi * 2 else rotationDiff0
  let rotationDiff2 := if rotationDiff1 < -ops.pi then rotationDiff1 + ops.pi * 2 else rotationDiff1
  min (max rotationDiff2 (-st.maxDriftAngle)) st.maxDriftAngle

/-- Velocity-heading after grip coupling (CarPhysics.js line 79). -/
def velocity1 (ops : RealOps) (keys : Keys) (st : CarState) : ℚ :=
  st.velocityAngle + rotationDiff ops keys st * st.grip

/-- The velocity vector (CarPhysics.js lines 82-83):
`(cos(velocityAngle - pi/2), 0, sin(velocityAngle - pi/2)) * speed`. -/
def velocityVector (ops : RealOps) (keys : Keys) (st : CarState) : Vec3 :=
  let velocityAngle := velocity1 ops keys st - ops.pi / 2
  Vec3.smul (newSpeed keys st) ⟨ops.cos velocityAngle, 0, ops.sin velocityAngle⟩

/-- Candidate position (CarPhysics.js line 85). -/
def newPosition (ops : RealOps) (keys : Keys) (st : CarState) : Vec3 :=
  Vec3.add st.position (velocityVector ops keys st)

/-- Localization of the candidate position (CarPhysics.js line 86). -/
def props (ops : RealOps) (keys : Keys) (st : CarState) (curve : Curve)
    (divisions : ℤ) : TrackProps :=
  getTrackProperties ops (newPosition ops keys st) curve divisions st.currentT

/-- The tangent at the localized parameter (CarPhysics.js line 89). -/
def tangentVector (ops : RealOps) (keys : Keys) (st : CarState) (curve : Curve)
    (divisions : ℤ) : Vec3 :=
  curve.getTangentAt (props ops keys st curve divisions).closestT

/-- The wrong-way dot product (CarPhysics.js lines 90-91): normalized velocity
vector against the tangent. -/
def dotProduct (ops : RealOps) (keys : Keys) (st : CarState) (curve : Curve)
    (divisions : ℤ) : ℚ :=
  Vec3.dot (Vec3.normalize ops (velocityVector ops keys st))
    (tangentVector ops keys st curve divisions)

/-- `updatePhysics(keys, state, curve, divisions, roadHalfWidth)` of
src/js/CarPhysics.js lines 38-134, assembled from the stage definitions above
in source order: speed update, steering, drift with the `maxDriftAngle` clamp,
movement, then either the wrong-way teleport-and-reset (dot < -0.8 at
speed > 0.5, lines 93-107), free movement (lines 113-114), or the hard-clamp
collision response with re-alignment to the tangent (lines 115-130).  This
variant never writes `state.currentT`. -/
def updatePhysics (ops : RealOps) (keys : Keys) (st : CarState) (curve : Curve)
    (divisions : ℤ) (roadHalfWidth : ℚ) : CarState :=
  if dotProduct ops keys st curve divisions < -(4/5) ∧ 1/2 < newSpeed keys st then
    let correctAngle := ops.atan2 (tangentVector ops keys st curve divisions).x
      (-(tangentVector ops keys st curve divisions).z)
    { st with
      isWrongWay := true
      position := (props ops keys st curve divisions).closestPoint
      velocityAngle := correctAngle
      rotationAngle := correctAngle
      speed := 0 }
  else if |(props ops keys st curve divisions).lateralDistance| < roadHalfWidth then
    { st with
      isWrongWay := false
      position := newPosition ops keys st
      speed := newSpeed keys st
      rotationAngle := rotation1 keys st
      velocityAngle := velocity1 ops keys st }
  else
    let sp2 := newSpeed keys st * (2/5)
    let clampedLateral :=
      max (-roadHalfWidth + 1/10)
        (min (roadHalfWidth - 1/10) (props ops keys st curve divisions).lateralDistance)
    let clampedPosition := Vec3.add (props ops keys st curve divisions).closestPoint
      (Vec3.smul clampedLateral (props ops keys st curve divisions).binormal)
    let targetAngle0 := ops.atan2 (tangentVector ops keys st curve divisions).x
      (-(tangentVector ops keys st curve divisions).z)
    let targetAngle := if sp2 < 0 then targetAngle0 + ops.pi else targetAngle0
    { st with
      isWrongWay := false
      position := clampedPosition
      speed := sp2
      rotationAngle := targetAngle
      velocityAngle := targetAngle }

end Improved

/-! ### Lap tracking: src/unnamed/part_003 lines 26-45 and 133-146
(the same functions appear in src/js/GameManager.js) -/

/-- The fields of the module-level `gameState` the lap tracker reads and
writes.  `bestLapTime` starts as `Infinity` in the source; `none` stands for
`Infinity` here (every finite lap time compares below it). -/
structure GameState where
  previousT : ℚ
  currentLap : ℕ
  totalLaps : ℕ
  lapTimes : List ℚ
  bestLapTime : Option ℚ
  lapStartTime : ℚ
  isPaused : Bool
deriving DecidableEq

/-- `handleLapFinish()` (part_003 lines 26-45) with `performance.now()` passed
in as `now`: records the lap time, updates the best, and either finishes the
race (at the configured total) or advances the lap counter.  The audio/UI
notifications are external effects and are not modelled. -/
def handleLapFinish (now : ℚ) (g : GameState) : GameState × Bool :=
  let newLapTime := now - g.lapStartTime
  let lapTimes := g.lapTimes ++ [newLapTime]
  let bestLapTime :=
    match g.bestLapTime with
    | none => some newLapTime
    | some b => if newLapTime < b then some newLapTime else some b
  let g1 := { g with lapTimes := lapTimes, bestLapTime := bestLapTime, lapStartTime := now }
  if g1.totalLaps ≤ g1.currentLap then ({ g1 with isPaused := true }, true)
  else ({ g1 with currentLap := g1.currentLap + 1 }, false)

/-- `checkLapCompletion(position, speed)` (part_003 lines 133-146): localize,
store the new `currentT`, and register a lap exactly on the guarded wraparound
`previousT > 0.95 && currentT < 0.05 && speed > 0.5`.  The `!trackData.curve`
early return is not modelled: a curve is always supplied here.  Note the
source skips the `previousT` update when `handleLapFinish` reports the race
finished. -/
def checkLapCompletion (ops : RealOps) (now : ℚ) (position : Vec3) (curve : Curve)
    (divisions : ℤ) (g : GameState) (c : CarState) (speed : ℚ) :
    GameState × CarState × Bool :=
  let trackProps := getTrackProperties ops position curve divisions c.currentT
  let c1 := { c with currentT := trackProps.closestT }
  if 19/20 < g.previousT ∧ c1.currentT < 1/20 ∧ 1/2 < speed then
    let r := handleLapFinish now g
    if r.2 then (r.1, c1, true)
    else ({ r.1 with previousT := c1.currentT }, c1, false)
  else ({ g with previousT := c1.currentT }, c1, false)

/-! ### Track loading: src/js/TrackBuilder.js lines 32-56 and 193-264 -/

/-- `DEFAULT_TRACK_POINTS` (TrackBuilder.js lines 32-56). -/
def DEFAULT_TRACK_POINTS : List Vec3 :=
  [⟨0, 0, 0⟩, ⟨300, 0, 0⟩, ⟨320, 0, 50⟩, ⟨300, 0, 100⟩, ⟨320, 0, 150⟩,
   ⟨340, 0, 200⟩, ⟨320, 0, 250⟩, ⟨340, 0, 300⟩, ⟨340, 0, 500⟩, ⟨320, 0, 550⟩,
   ⟨290, 0, 500⟩, ⟨260, 0, 550⟩, ⟨240, 0, 600⟩, ⟨210, 0, 550⟩, ⟨180, 0, 600⟩,
   ⟨100, 0, 600⟩, ⟨50, 0, 550⟩, ⟨0, 0, 500⟩, ⟨-50, 0, 450⟩, ⟨-100, 0, 400⟩,
   ⟨-50, 0, 350⟩, ⟨0, 0, 0⟩]

/-- `THREE.MathUtils.degToRad`. -/
def degToRad (ops : RealOps) (degrees : ℚ) : ℚ := degrees * (ops.pi / 180)

/-- `Vector3.angleTo`: `acos(clamp(dot / sqrt(lenSq * lenSq), -1, 1))`, with
`PI / 2` for a zero denominator. -/
def vAngleTo (ops : RealOps) (a b : Vec3) : ℚ :=
  let denominator := ops.sqrt (Vec3.dot a a * Vec3.dot b b)
  if denominator = 0 then ops.pi / 2
  else ops.acos (max (-1) (min 1 (Vec3.dot a b / denominator)))

/-- The per-corner body of the smoothing loop (TrackBuilder.js lines 199-231):
a sharp corner (turn angle above the threshold) is replaced by interpolated
points pulled toward the corner on both sides; a gentle one is kept as is. -/
def smoothSegment (ops : RealOps) (smoothness maxAngleRad : ℚ)
    (prev current next : Vec3) : List Vec3 :=
  let v1 := Vec3.sub current prev
  let v2 := Vec3.sub next current
  let angle := vAngleTo ops v1 v2
  if maxAngleRad < angle then
    let numIntermediatePoints : ℤ := ⌈angle / maxAngleRad⌉ * 2
    let before := (List.range numIntermediatePoints.toNat).map (fun j =>
      let t := ((j : ℚ) + 1) / ((numIntermediatePoints : ℚ) + 1)
      Vec3.lerp (Vec3.lerp prev current t) current smoothness)
    let after := (List.range numIntermediatePoints.toNat).map (fun j =>
      let t := ((j : ℚ) + 1) / ((numIntermediatePoints : ℚ) + 1)
      Vec3.lerp (Vec3.lerp current next t) current smoothness)
    before ++ [current] ++ after
  else [current]

/-- `smoothTrackCorners(points, smoothness, maxAngle)` (TrackBuilder.js lines
193-235): lists with fewer than 3 points are returned unchanged; otherwise the
first point, the smoothed interior corners, and the last point. -/
def smoothTrackCorners (ops : RealOps) (points : List Vec3)
    (smoothness maxAngle : ℚ) : List Vec3 :=
  if points.length < 3 then points
  else
    let maxAngleRad := degToRad ops maxAngle
    let mid := ((List.range (points.length - 2)).map (fun j =>
      let i := j + 1
      smoothSegment ops smoothness maxAngleRad (points.getD (i - 1) ⟨0, 0, 0⟩)
        (points.getD i ⟨0, 0, 0⟩) (points.getD (i + 1) ⟨0, 0, 0⟩))).flatten
    [points.getD 0 ⟨0, 0, 0⟩] ++ mid ++ [points.getD (points.length - 1) ⟨0, 0, 0⟩]

/-- `loadTrackDefinition(trackName)` (TrackBuilder.js lines 238-264), returning
the point list handed to `new THREE.CatmullRomCurve3(smoothedPoints, true,
"catmullrom", 0.1)`.  `isBuiltinName` stands for
`trackName === 'Monza Standard' || trackName === 'Track1'`; `stored` is the
parsed `localStorage` point list, `none` when the entry is missing or parsing
threw (both fall back to the defaults, lines 249-254).  The guard at lines
259-261 re-assigns the local variable `points`, but line 263 builds the curve
from `smoothedPoints`, so that re-assignment never reaches the curve; the
embedding keeps the dead store as `_pointsAfterCheck`. -/
def loadTrackDefinition (ops : RealOps) (isBuiltinName : Bool)
    (stored : Option (List Vec3)) : List Vec3 :=
  let points := if isBuiltinName then DEFAULT_TRACK_POINTS else stored.getD DEFAULT_TRACK_POINTS
  let smoothedPoints := smoothTrackCorners ops points (3/10) 60
  let _pointsAfterCheck := if smoothedPoints.length < 3 then DEFAULT_TRACK_POINTS else points
  smoothedPoints

/-! ### Statement of the localizer claim in the spec's own words -/

/-- Candidate parameters as the specification sentence describes them: the
window indices "wrapped modulo `divisions`", i.e. the canonical residue in
`[0, divisions)`, divided by `divisions`.  Stated from the spec's words, for
comparison with `candidateTs` computed by the code. -/
def specWrapCandidates (divisions : ℤ) (lastT : ℚ) : List ℚ :=
  windowOffsets.map (fun i =>
    (((⌊lastT * (divisions : ℚ)⌋ + i) % divisions : ℤ) : ℚ) / (divisions : ℚ))

/-! ### Concrete fixtures for witnesses and counterexamples -/

/-- A concrete oracle instance: trigonometry collapsed to 0, square roots to 1
(exact on the unit-length vectors the fixtures produce), and `pi` the rational
355/113, which lies in (3, 3.15) like the real `Math.PI`. -/
def opsW : RealOps where
  sin := fun _ => 0
  cos := fun _ => 0
  sqrt := fun _ => 1
  acos := fun _ => 0
  atan2 := fun _ _ => 0
  pi := 355/113
  random := 0

/-- A concrete curve running along the x-axis: the point at parameter `t` is
`(t, 0, 0)`, the tangent everywhere `(1, 0, 0)`. -/
def lineCurve : Curve where
  getPointAt := fun t => ⟨t, 0, 0⟩
  getTangentAt := fun _ => ⟨1, 0, 0⟩

/-- A concrete degenerate curve sitting at the origin with tangent `(1, 0, 0)`. -/
def constCurve : Curve where
  getPointAt := fun _ => ⟨0, 0, 0⟩
  getTangentAt := fun _ => ⟨1, 0, 0⟩

/-- No key pressed. -/
def keysNone : Keys := ⟨false, false, false, false, false, false, false, false, false⟩

/-- Only the `a` (steer left) key pressed. -/
def keysA : Keys := { keysNone with a := true }

/-- A car 20 units off the centerline of `constCurve` moving at speed 1: with
road half-width 10 it is beyond both the road edge and the kerbs. -/
def stC2 : CarState := { Kerb.carState with position := ⟨0, 0, -20⟩, speed := 1 }

/-! ## Supporting lemmas -/

/-- Invariant of the closest-point scan: folding `scanStep` keeps the stored
minimum equal to the distance of the stored parameter, ends on the initial
accumulator or on one of the visited candidates, bounds every visited
candidate's distance from below by the stored minimum, and never increases a
previously stored minimum. -/
theorem scan_spec (position : Vec3) (curve : Curve) (divisions currentI : ℤ) (l : List ℤ) :
    ∀ acc : ℚ × Option ℚ,
      (∀ m, acc.2 = some m →
          m = Vec3.distanceToSquared (curve.getPointAt acc.1) position) →
      (∀ m, (l.foldl (scanStep position curve divisions currentI) acc).2 = some m →
          m = Vec3.distanceToSquared
            (curve.getPointAt (l.foldl (scanStep position curve divisions currentI) acc).1)
            position) ∧
      (l.foldl (scanStep position curve divisions currentI) acc = acc ∨
        (l.foldl (scanStep position curve divisions currentI) acc).1 ∈
          l.map (candT divisions currentI)) ∧
      (∀ i ∈ l, ∃ m, (l.foldl (scanStep position curve divisions currentI) acc).2 = some m ∧
        m ≤ Vec3.distanceToSquared (curve.getPointAt (candT divisions currentI i)) position) ∧
      (∀ m, acc.2 = some m →
        ∃ m2, (l.foldl (scanStep position curve divisions currentI) acc).2 = some m2 ∧ m2 ≤ m) := by
  induction l with
  | nil =>
    intro acc hacc
    exact ⟨hacc, Or.inl rfl, by simp, fun m hm => ⟨m, hm, le_rfl⟩⟩
  | cons x l ih =>
    intro acc hacc
    simp only [List.foldl_cons, List.map_cons, List.mem_cons]
    obtain ⟨t0, o0⟩ := acc
    have step_facts :
        (∀ m, (scanStep position curve divisions currentI (t0, o0) x).2 = some m →
            m = Vec3.distanceToSquared
              (curve.getPointAt (scanStep position curve divisions currentI (t0, o0) x).1)
              position) ∧
        (scanStep position curve divisions currentI (t0, o0) x = (t0, o0) ∨
          (scanStep position curve divisions currentI (t0, o0) x).1 = candT divisions currentI x) ∧
        (∃ m, (scanStep position curve divisions currentI (t0, o0) x).2 = some m ∧
          m ≤ Vec3.distanceToSquared (curve.getPointAt (candT divisions currentI x)) position) ∧
        (∀ m, o0 = some m →
          ∃ m2, (scanStep position curve divisions currentI (t0, o0) x).2 = some m2 ∧ m2 ≤ m) := by
      rcases o0 with _ | m0
      · have hstep : scanStep position curve divisions currentI (t0, none) x =
            (candT divisions currentI x,
              some ((curve.getPointAt (candT divisions currentI x)).distanceToSquared position)) :=
          rfl
        rw [hstep]
        refine ⟨?_, Or.inr rfl, ⟨_, rfl, le_rfl⟩, ?_⟩
        · intro m hm
          injection hm with hm
          rw [← hm]
        · intro m hm
          exact Option.noConfusion hm
      · by_cases hlt :
            (curve.getPointAt (candT divisions currentI x)).distanceToSquared position < m0
        · have hstep : scanStep position curve divisions currentI (t0, some m0) x =
              (candT divisions currentI x,
                some ((curve.getPointAt (candT divisions currentI x)).distanceToSquared position)) := by
            simp only [scanStep, if_pos hlt]
          rw [hstep]
          refine ⟨?_, Or.inr rfl, ⟨_, rfl, le_rfl⟩, ?_⟩
          · intro m hm
            injection hm with hm
            rw [← hm]
          · intro m hm
            injection hm with hm
            exact ⟨_, rfl, le_of_lt (by rw [← hm]; exact hlt)⟩
        · have hstep : scanStep position curve divisions currentI (t0, some m0) x =
              (t0, some m0) := by
            simp only [scanStep, if_neg hlt]
          rw [hstep]
          refine ⟨hacc, Or.inl rfl, ⟨m0, rfl, le_of_not_lt hlt⟩, ?_⟩
          intro m hm
          injection hm with hm
          exact ⟨m0, rfl, by rw [← hm]⟩
    obtain ⟨sf1, sf2, sf3, sf4⟩ := step_facts
    obtain ⟨ih1, ih2, ih3, ih4⟩ := ih (scanStep position curve divisions currentI (t0, o0) x) sf1
    refine ⟨ih1, ?_, ?_, ?_⟩
    · rcases ih2 with h | h
      · rcases sf2 with h2 | h2
        · exact Or.inl (h.trans h2)
        · exact Or.inr (Or.inl (by rw [h]; exact h2))
      · exact Or.inr (Or.inr h)
    · intro i hi
      rcases hi with hi | hi
      · obtain ⟨mx, hmx, hmxle⟩ := sf3
        obtain ⟨m2, hm2, hm2le⟩ := ih4 mx hmx
        exact ⟨m2, hm2, le_trans hm2le (by rw [hi]; exact hmxle)⟩
      · exact ih3 i hi
    · intro m hm
      obtain ⟨mx, hmx, hmxle⟩ := sf4 m hm
      obtain ⟨m2, hm2, hm2le⟩ := ih4 mx hmx
      exact ⟨m2, hm2, le_trans hm2le hmxle⟩

/-- What `getTrackProperties` returns for the closest parameter: always one of
the candidate parameters of the search window, with `minDistanceSq` the
squared distance at that parameter, minimal among all candidates. -/
theorem getTrackProperties_spec (ops : RealOps) (position : Vec3) (curve : Curve)
    (divisions : ℤ) (lastT : ℚ) :
    (getTrackProperties ops position curve divisions lastT).closestT ∈
        candidateTs divisions lastT ∧
    (getTrackProperties ops position curve divisions lastT).minDistanceSq =
      Vec3.distanceToSquared
        (curve.getPointAt (getTrackProperties ops position curve divisions lastT).closestT)
        position ∧
    ∀ t ∈ candidateTs divisions lastT,
      (getTrackProperties ops position curve divisions lastT).minDistanceSq ≤
        Vec3.distanceToSquared (curve.getPointAt t) position := by
  obtain ⟨h1, h2, h3, _⟩ :=
    scan_spec position curve divisions ⌊lastT * (divisions : ℚ)⌋ windowOffsets
      (lastT, none) (by simp)
  obtain ⟨m, hm, _⟩ := h3 (-30) (by decide)
  have hclosest :
      (getTrackProperties ops position curve divisions lastT).closestT =
        (windowOffsets.foldl
          (scanStep position curve divisions ⌊lastT * (divisions : ℚ)⌋) (lastT, none)).1 := rfl
  have hmin :
      (getTrackProperties ops position curve divisions lastT).minDistanceSq =
        ((windowOffsets.foldl
          (scanStep position curve divisions ⌊lastT * (divisions : ℚ)⌋) (lastT, none)).2).getD 0 :=
    rfl
  have hmem : (windowOffsets.foldl
      (scanStep position curve divisions ⌊lastT * (divisions : ℚ)⌋) (lastT, none)).1 ∈
      windowOffsets.map (candT divisions ⌊lastT * (divisions : ℚ)⌋) := by
    rcases h2 with h | h
    · rw [h] at hm; simp at hm
    · exact h
  refine ⟨hclosest ▸ hmem, ?_, ?_⟩
  · rw [hmin, hm, Option.getD_some, h1 m hm, hclosest]
  · intro t ht
    obtain ⟨i, hi, hit⟩ := List.mem_map.mp ht
    obtain ⟨m2, hm2, hm2le⟩ := h3 i hi
    rw [hmin, hm2, Option.getD_some, ← hit]
    exact hm2le

/-- Bounds on the wrapped index: with a window no wider than the tessellation
(`30 ≤ divisions`) and an in-range base index, the single conditional
correction lands in `[0, divisions]`. -/
theorem wrapIndex_bounds (divisions currentI i : ℤ) (h30 : 30 ≤ divisions)
    (hlo : 0 ≤ currentI) (hhi : currentI ≤ divisions) (hi1 : -30 ≤ i) (hi2 : i ≤ 30) :
    0 ≤ wrapIndex divisions currentI i ∧ wrapIndex divisions currentI i ≤ divisions := by
  unfold wrapIndex
  dsimp only
  split_ifs <;> omega

/-- The wrapped angle lands in `[-pi, pi]` whenever `pi` is positive. -/
theorem normAngle_bounds (pi x : ℚ) (hpi : 0 < pi) :
    -pi ≤ normAngle pi x ∧ normAngle pi x ≤ pi := by
  have h2pi : (0 : ℚ) < 2 * pi := by linarith
  unfold normAngle
  dsimp only
  set a1 : ℤ := ⌈(x - pi) / (2 * pi)⌉ with ha1
  set y1 : ℚ := x - 2 * pi * ((max 0 a1 : ℤ) : ℚ) with hy1
  set a2 : ℤ := ⌈(-pi - y1) / (2 * pi)⌉ with ha2
  have hy1le : y1 ≤ pi := by
    have h1 : (x - pi) / (2 * pi) ≤ ((max 0 a1 : ℤ) : ℚ) :=
      (Int.le_ceil _).trans (by exact_mod_cast le_max_right 0 a1)
    rw [div_le_iff₀ h2pi] at h1
    rw [hy1]; nlinarith
  constructor
  · have h1 : (-pi - y1) / (2 * pi) ≤ ((max 0 a2 : ℤ) : ℚ) :=
      (Int.le_ceil _).trans (by exact_mod_cast le_max_right 0 a2)
    rw [div_le_iff₀ h2pi] at h1
    nlinarith
  · rcases max_choice 0 a2 with h | h
    · rw [h]
      push_cast
      linarith
    · rw [h]
      have hlt : ((a2 : ℤ) : ℚ) < (-pi - y1) / (2 * pi) + 1 := by
        rw [ha2]; exact Int.ceil_lt_add_one _
      have h2 : (((a2 : ℤ) : ℚ) - 1) * (2 * pi) < -pi - y1 := by
        rw [← lt_div_iff₀ h2pi]
        linarith
      nlinarith

/-- Two points at squared distance zero coincide. -/
theorem distanceToSquared_eq_zero_iff (a b : Vec3) :
    Vec3.distanceToSquared a b = 0 ↔ a = b := by
  unfold Vec3.distanceToSquared
  constructor
  · intro h
    obtain ⟨ax, ay, az⟩ := a
    obtain ⟨bx, by', bz⟩ := b
    simp only at h
    have hx : (ax - bx) * (ax - bx) = 0 := by
      nlinarith [mul_self_nonneg (ay - by'), mul_self_nonneg (az - bz), mul_self_nonneg (ax - bx)]
    have hy : (ay - by') * (ay - by') = 0 := by
      nlinarith [mul_self_nonneg (ax - bx), mul_self_nonneg (az - bz), mul_self_nonneg (ay - by')]
    have hz : (az - bz) * (az - bz) = 0 := by
      nlinarith [mul_self_nonneg (ax - bx), mul_self_nonneg (ay - by'), mul_self_nonneg (az - bz)]
    have hx2 := mul_self_eq_zero.mp hx
    have hy2 := mul_self_eq_zero.mp hy
    have hz2 := mul_self_eq_zero.mp hz
    simp only [Vec3.mk.injEq]
    refine ⟨by linarith, by linarith, by linarith⟩
  · intro h
    subst h
    ring

/-- Squared distances are nonnegative. -/
theorem distanceToSquared_nonneg (a b : Vec3) : 0 ≤ Vec3.distanceToSquared a b := by
  unfold Vec3.distanceToSquared
  nlinarith [mul_self_nonneg (a.x - b.x), mul_self_nonneg (a.y - b.y), mul_self_nonneg (a.z - b.z)]

/-- Scaling by a factor in `[0, 1]` keeps a speed inside
`[-maxSpeed/2, maxSpeed]`. -/
theorem scale_keeps_interval {M v c : ℚ} (hM : 0 ≤ M) (h1 : -M / 2 ≤ v) (h2 : v ≤ M)
    (hc0 : 0 ≤ c) (hc1 : c ≤ 1) : -M / 2 ≤ c * v ∧ c * v ≤ M := by
  rcases le_or_lt 0 v with hv | hv
  · constructor
    · nlinarith
    · nlinarith
  · constructor
    · nlinarith
    · nlinarith

/-- Clamping toward an interval containing zero does not increase magnitude. -/
theorem abs_clamp_le {lo hi x : ℚ} (hlo : lo ≤ 0) (hhi : 0 ≤ hi) :
    |max lo (min hi x)| ≤ |x| := by
  rcases le_or_lt 0 x with hx | hx
  · have h1 : max lo (min hi x) ≤ x := max_le (by linarith [abs_nonneg x]; ) (min_le_right hi x)
    have h2 : 0 ≤ max lo (min hi x) := le_max_of_le_right (le_min hhi hx)
    rw [abs_of_nonneg h2, abs_of_nonneg hx]
    exact h1
  · have hmin : min hi x = x := min_eq_right (by linarith)
    rw [hmin]
    have h1 : max lo x ≤ 0 := max_le hlo (le_of_lt hx)
    have h2 : x ≤ max lo x := le_max_right lo x
    rw [abs_of_nonpos h1, abs_of_nonpos (le_of_lt hx)]
    linarith

/-- The clamp-then-snap tail of the speed update stays inside
`[-maxSpeed/2, maxSpeed]`. -/
theorem snapClamp_bounds (M s3 : ℚ) (hM : 0 ≤ M) :
    -M / 2 ≤ (if |max (-M / 2) (min M s3)| < 1/200 then 0 else max (-M / 2) (min M s3)) ∧
    (if |max (-M / 2) (min M s3)| < 1/200 then 0 else max (-M / 2) (min M s3)) ≤ M := by
  split_ifs with h
  · constructor <;> linarith
  · exact ⟨le_max_left _ _, max_le (by linarith) (min_le_left _ _)⟩

/-- The clamp-then-snap tail never increases magnitude. -/
theorem snapClamp_abs_le (M s3 : ℚ) (hM : 0 ≤ M) :
    |if |max (-M / 2) (min M s3)| < 1/200 then 0 else max (-M / 2) (min M s3)| ≤ |s3| := by
  split_ifs with h
  · simp
  · exact abs_clamp_le (by linarith) hM

/-- The clamp-then-snap tail maps speeds below the epsilon to exactly zero. -/
theorem snapClamp_zero (M s3 : ℚ) (hM : 0 ≤ M) (h : |s3| < 1/200) :
    (if |max (-M / 2) (min M s3)| < 1/200 then 0 else max (-M / 2) (min M s3)) = 0 := by
  rw [if_pos]
  exact lt_of_le_of_lt (abs_clamp_le (by linarith) hM) h

/-- Bounds on the gyro variant's drive speed for a nonnegative `maxSpeed`. -/
theorem gyro_driveSpeed_bounds (keys : Keys) (st : CarState) (hM : 0 ≤ st.maxSpeed) :
    -st.maxSpeed / 2 ≤ Gyro.driveSpeed keys st ∧ Gyro.driveSpeed keys st ≤ st.maxSpeed := by
  unfold Gyro.driveSpeed
  dsimp only
  exact snapClamp_bounds st.maxSpeed _ hM

/-- With no throttle, reverse, or handbrake input, the drive speed is the
old speed times the friction factor, clamped and snapped. -/
theorem gyro_driveSpeed_noInput (keys : Keys) (st : CarState) (hw : keys.w = false)
    (hs : keys.s = false) (hsp : keys.space = false) :
    Gyro.driveSpeed keys st =
      (if |max (-st.maxSpeed / 2) (min st.maxSpeed (st.speed * st.friction))| < 1/200 then 0
       else max (-st.maxSpeed / 2) (min st.maxSpeed (st.speed * st.friction))) := by
  simp [Gyro.driveSpeed, hw, hs, hsp]

/-- Coasting with the source constants shrinks the speed magnitude by at
least the friction factor per tick. -/
theorem gyro_driveSpeed_decay (keys : Keys) (st : CarState) (hw : keys.w = false)
    (hs : keys.s = false) (hsp : keys.space = false) (hf : st.friction = 197/200)
    (hM : st.maxSpeed = 2) :
    |Gyro.driveSpeed keys st| ≤ (197/200) * |st.speed| := by
  rw [gyro_driveSpeed_noInput keys st hw hs hsp]
  calc |if |max (-st.maxSpeed / 2) (min st.maxSpeed (st.speed * st.friction))| < 1/200 then 0
        else max (-st.maxSpeed / 2) (min st.maxSpeed (st.speed * st.friction))|
      ≤ |st.speed * st.friction| := snapClamp_abs_le _ _ (by rw [hM]; norm_num)
    _ = (197/200) * |st.speed| := by
        rw [abs_mul, hf, abs_of_nonneg (by norm_num : (0:ℚ) ≤ 197/200), mul_comm]

/-- Coasting from a speed below the epsilon snaps to an exact zero. -/
theorem gyro_driveSpeed_snap (keys : Keys) (st : CarState) (hw : keys.w = false)
    (hs : keys.s = false) (hsp : keys.space = false) (hf : st.friction = 197/200)
    (hM : st.maxSpeed = 2) (h : |st.speed| < 1/200) :
    Gyro.driveSpeed keys st = 0 := by
  rw [gyro_driveSpeed_noInput keys st hw hs hsp]
  apply snapClamp_zero _ _ (by rw [hM]; norm_num)
  rw [abs_mul, hf, abs_of_nonneg (by norm_num : (0:ℚ) ≤ 197/200)]
  nlinarith [abs_nonneg st.speed]

/-- The wrong-way and boundary penalties multiply the drive speed by a factor
in `(0, 1]`. -/
theorem gyro_finalSpeed_factor (ops : RealOps) (keys : Keys) (st : CarState) (curve : Curve)
    (divisions : ℤ) (roadHalfWidth : ℚ) (steerValue : Option ℚ) :
    ∃ c : ℚ, 0 < c ∧ c ≤ 1 ∧
      Gyro.finalSpeed ops keys st curve divisions roadHalfWidth steerValue =
        c * Gyro.driveSpeed keys st := by
  unfold Gyro.finalSpeed Gyro.speedAfterWrongWay
  split_ifs
  · exact ⟨19/25, by norm_num, by norm_num, by ring⟩
  · exact ⟨19/20, by norm_num, by norm_num, by ring⟩
  · exact ⟨4/5, by norm_num, by norm_num, by ring⟩
  · exact ⟨1, by norm_num, by norm_num, by ring⟩

/-- The speed stored by the gyro step is its final-speed stage. -/
theorem gyro_step_speed (ops : RealOps) (keys : Keys) (st : CarState) (curve : Curve)
    (divisions : ℤ) (roadHalfWidth : ℚ) (steerValue : Option ℚ) :
    (Gyro.updatePhysics ops keys st curve divisions roadHalfWidth steerValue).state.speed =
      Gyro.finalSpeed ops keys st curve divisions roadHalfWidth steerValue := rfl

/-- One coasting gyro step with the source constants shrinks the speed
magnitude by at least the friction factor. -/
theorem gyro_step_decay (ops : RealOps) (keys : Keys) (st : CarState) (curve : Curve)
    (divisions : ℤ) (roadHalfWidth : ℚ) (steerValue : Option ℚ) (hw : keys.w = false)
    (hs : keys.s = false) (hsp : keys.space = false) (hf : st.friction = 197/200)
    (hM : st.maxSpeed = 2) :
    |(Gyro.updatePhysics ops keys st curve divisions roadHalfWidth steerValue).state.speed| ≤
      (197/200) * |st.speed| := by
  rw [gyro_step_speed]
  obtain ⟨c, hc0, hc1, hceq⟩ :=
    gyro_finalSpeed_factor ops keys st curve divisions roadHalfWidth steerValue
  rw [hceq, abs_mul, abs_of_pos hc0]
  have h1 : c * |Gyro.driveSpeed keys st| ≤ |Gyro.driveSpeed keys st| := by
    nlinarith [abs_nonneg (Gyro.driveSpeed keys st)]
  exact h1.trans (gyro_driveSpeed_decay keys st hw hs hsp hf hM)

/-- One gyro step leaves the speed magnitude at most 2 (the source's
`maxSpeed`), whatever the incoming speed was. -/
theorem gyro_step_speed_le_two (ops : RealOps) (keys : Keys) (st : CarState) (curve : Curve)
    (divisions : ℤ) (roadHalfWidth : ℚ) (steerValue : Option ℚ) (hM : st.maxSpeed = 2) :
    |(Gyro.updatePhysics ops keys st curve divisions roadHalfWidth steerValue).state.speed| ≤ 2 := by
  rw [gyro_step_speed]
  obtain ⟨c, hc0, hc1, hceq⟩ :=
    gyro_finalSpeed_factor ops keys st curve divisions roadHalfWidth steerValue
  obtain ⟨hd1, hd2⟩ := gyro_driveSpeed_bounds keys st (by rw [hM]; norm_num)
  rw [hM] at hd1 hd2
  rw [hceq, abs_mul, abs_of_pos hc0]
  have habs : |Gyro.driveSpeed keys st| ≤ 2 := abs_le.mpr ⟨by linarith, hd2⟩
  nlinarith [abs_nonneg (Gyro.driveSpeed keys st)]

/-- A coasting gyro step from below the epsilon stores an exact zero speed. -/
theorem gyro_step_snap (ops : RealOps) (keys : Keys) (st : CarState) (curve : Curve)
    (divisions : ℤ) (roadHalfWidth : ℚ) (steerValue : Option ℚ) (hw : keys.w = false)
    (hs : keys.s = false) (hsp : keys.space = false) (hf : st.friction = 197/200)
    (hM : st.maxSpeed = 2) (h : |st.speed| < 1/200) :
    (Gyro.updatePhysics ops keys st curve divisions roadHalfWidth steerValue).state.speed = 0 := by
  rw [gyro_step_speed]
  obtain ⟨c, _, _, hceq⟩ :=
    gyro_finalSpeed_factor ops keys st curve divisions roadHalfWidth steerValue
  rw [hceq, gyro_driveSpeed_snap keys st hw hs hsp hf hM h, mul_zero]

/-- Unrolling the iterated gyro step from the front. -/
theorem gyro_iterate_front (ops : RealOps) (keys : Keys) (curve : Curve) (divisions : ℤ)
    (roadHalfWidth : ℚ) (steerValue : Option ℚ) (n : ℕ) (st : CarState) :
    Gyro.iterate ops keys curve divisions roadHalfWidth steerValue (n + 1) st =
      Gyro.iterate ops keys curve divisions roadHalfWidth steerValue n
        (Gyro.updatePhysics ops keys st curve divisions roadHalfWidth steerValue).state := rfl

/-- Unrolling the iterated gyro step from the back. -/
theorem gyro_iterate_succ (ops : RealOps) (keys : Keys) (curve : Curve) (divisions : ℤ)
    (roadHalfWidth : ℚ) (steerValue : Option ℚ) (n : ℕ) (st : CarState) :
    Gyro.iterate ops keys curve divisions roadHalfWidth steerValue (n + 1) st =
      (Gyro.updatePhysics ops keys
        (Gyro.iterate ops keys curve divisions roadHalfWidth steerValue n st)
        curve divisions roadHalfWidth steerValue).state := by
  induction n generalizing st with
  | zero => rfl
  | succ n ih =>
    have h1 : Gyro.iterate ops keys curve divisions roadHalfWidth steerValue (n + 2) st =
        Gyro.iterate ops keys curve divisions roadHalfWidth steerValue (n + 1)
          (Gyro.updatePhysics ops keys st curve divisions roadHalfWidth steerValue).state := rfl
    rw [h1, ih]
    rfl

/-- The iterated gyro step never changes the tunable constants. -/
theorem gyro_iterate_consts (ops : RealOps) (keys : Keys) (curve : Curve) (divisions : ℤ)
    (roadHalfWidth : ℚ) (steerValue : Option ℚ) (n : ℕ) :
    ∀ st : CarState,
      (Gyro.iterate ops keys curve divisions roadHalfWidth steerValue n st).friction =
        st.friction ∧
      (Gyro.iterate ops keys curve divisions roadHalfWidth steerValue n st).maxSpeed =
        st.maxSpeed := by
  induction n with
  | zero => exact fun st => ⟨rfl, rfl⟩
  | succ n ih =>
    intro st
    exact ⟨(ih _).1.trans rfl, (ih _).2.trans rfl⟩

/-- Coasting for `n` ticks shrinks the speed magnitude geometrically. -/
theorem gyro_iterate_decay (ops : RealOps) (keys : Keys) (curve : Curve) (divisions : ℤ)
    (roadHalfWidth : ℚ) (steerValue : Option ℚ) (hw : keys.w = false) (hs : keys.s = false)
    (hsp : keys.space = false) (n : ℕ) :
    ∀ st : CarState, st.friction = 197/200 → st.maxSpeed = 2 →
      |(Gyro.iterate ops keys curve divisions roadHalfWidth steerValue n st).speed| ≤
        (197/200) ^ n * |st.speed| := by
  induction n with
  | zero =>
    intro st _ _
    rw [pow_zero, one_mul]
    exact le_of_eq rfl
  | succ n ih =>
    intro st hf hM
    have h1 : Gyro.iterate ops keys curve divisions roadHalfWidth steerValue (n + 1) st =
        Gyro.iterate ops keys curve divisions roadHalfWidth steerValue n
          (Gyro.updatePhysics ops keys st curve divisions roadHalfWidth steerValue).state := rfl
    rw [h1]
    have hstep := gyro_step_decay ops keys st curve divisions roadHalfWidth steerValue
      hw hs hsp hf hM
    have hf2 : (Gyro.updatePhysics ops keys st curve divisions roadHalfWidth
        steerValue).state.friction = (197:ℚ)/200 := hf
    have hM2 : (Gyro.updatePhysics ops keys st curve divisions roadHalfWidth
        steerValue).state.maxSpeed = (2:ℚ) := hM
    have hrec := ih _ hf2 hM2
    have hp : (0:ℚ) ≤ (197/200) ^ n := by positivity
    calc |(Gyro.iterate ops keys curve divisions roadHalfWidth steerValue n
            (Gyro.updatePhysics ops keys st curve divisions roadHalfWidth
              steerValue).state).speed|
        ≤ (197/200) ^ n *
            |(Gyro.updatePhysics ops keys st curve divisions roadHalfWidth
              steerValue).state.speed| := hrec
      _ ≤ (197/200) ^ n * ((197/200) * |st.speed|) := by nlinarith
      _ = (197/200) ^ (n + 1) * |st.speed| := by ring

/-- The numeric core of the convergence bound: after 26202 friction factors a
speed that started at magnitude 2 is below the 0.005 snap epsilon. -/
theorem frictionPow_small : ((197:ℚ)/200) ^ 26202 * 2 < 1/200 := by
  have hb : (1:ℚ) + 26202 * (3/197) ≤ (1 + 3/197) ^ 26202 :=
    one_add_mul_le_pow (by norm_num) 26202
  have h400 : (400:ℚ) < (1 + 3/197) ^ 26202 := lt_of_lt_of_le (by norm_num) hb
  have hinv : ((197:ℚ)/200) ^ 26202 = ((1 + 3/197) ^ 26202)⁻¹ := by
    rw [← inv_pow]
    norm_num
  have h2 : ((1 + 3/197:ℚ) ^ 26202)⁻¹ < 1/400 := by
    rw [← one_div]
    exact one_div_lt_one_div_of_lt (by norm_num) h400
  rw [hinv]
  linarith

/-- `Math.sign` never exceeds 1 in magnitude. -/
theorem mathSign_abs_le_one (q : ℚ) : |mathSign q| ≤ 1 := by
  unfold mathSign
  split_ifs <;> norm_num

/-- The kerb-timer block never moves the car. -/
theorem tickKerbTimer_position (st : CarState) : (Kerb.tickKerbTimer st).position = st.position := by
  unfold Kerb.tickKerbTimer
  dsimp only
  split_ifs <;> rfl

/-- A lerp one tenth of the way toward a target lands at exactly 81% of the
original squared distance from the target. -/
theorem lerp_distSq (p c : Vec3) :
    Vec3.distanceToSquared (Vec3.lerp p c (1/10)) c = (81/100) * Vec3.distanceToSquared p c := by
  obtain ⟨px, py, pz⟩ := p
  obtain ⟨cx, cy, cz⟩ := c
  simp only [Vec3.lerp, Vec3.distanceToSquared]
  ring

/-- `handleLapFinish` always appends exactly the new lap time. -/
theorem handleLapFinish_lapTimes (now : ℚ) (g : GameState) :
    (handleLapFinish now g).1.lapTimes = g.lapTimes ++ [now - g.lapStartTime] := by
  unfold handleLapFinish
  dsimp only
  split_ifs <;> rfl

/-! ## Claim theorems -/

/-- C3 (amended): `getTrackProperties` returns a `closestT` drawn from the 31
window candidates `floor(lastT * divisions) + i` for `i = -30, -28, ..., 30`,
each corrected by the single conditional wrap of Utils.js lines 42-44 (add
`divisions` when negative, subtract it when strictly above `divisions`), and
that candidate's squared distance is stored and minimal among all candidates.
(The claim's "wrapped modulo divisions" is amended to this conditional
correction: an index landing exactly on `divisions` is kept, giving `t = 1`
rather than `0`.) -/
theorem c3_localizer_window (ops : RealOps) (position : Vec3) (curve : Curve)
    (divisions : ℤ) (lastT : ℚ) :
    (getTrackProperties ops position curve divisions lastT).closestT ∈
        candidateTs divisions lastT ∧
    (getTrackProperties ops position curve divisions lastT).minDistanceSq =
      Vec3.distanceToSquared
        (curve.getPointAt (getTrackProperties ops position curve divisions lastT).closestT)
        position ∧
    ∀ t ∈ candidateTs divisions lastT,
      (getTrackProperties ops position curve divisions lastT).minDistanceSq ≤
        Vec3.distanceToSquared (curve.getPointAt t) position :=
  getTrackProperties_spec ops position curve divisions lastT

/-- C3 counterexample: for `divisions = 100`, `lastT = 0.98` and the x-axis
curve with query position `(1, 0, 0)`, the code returns `closestT = 1` (the
window index 100 is kept, not reduced modulo 100), which is not among the
modulo-wrapped candidate parameters the claim describes. -/
theorem c3_localizer_window_cex :
    (getTrackProperties opsW ⟨1, 0, 0⟩ lineCurve 100 (49/50)).closestT = 1 ∧
    (1 : ℚ) ∉ specWrapCandidates 100 (49/50) := by
  constructor
  · with_unfolding_all decide
  · with_unfolding_all decide

/-- C10 (amended): for `30 ≤ divisions` and `lastT ∈ [0, 1]`, the returned
`closestT` is a grid parameter `k / divisions` with `0 ≤ k ≤ divisions`, hence
lies in `[0, 1]` (for `divisions < 30` a window index can stay negative after
the single `+= divisions` correction, so the original claim's bound fails). -/
theorem c10_closestT_grid (ops : RealOps) (position : Vec3) (curve : Curve)
    (divisions : ℤ) (lastT : ℚ) (h30 : 30 ≤ divisions) (h0 : 0 ≤ lastT) (h1 : lastT ≤ 1) :
    ∃ k : ℤ, 0 ≤ k ∧ k ≤ divisions ∧
      (getTrackProperties ops position curve divisions lastT).closestT =
        (k : ℚ) / (divisions : ℚ) ∧
      0 ≤ (getTrackProperties ops position curve divisions lastT).closestT ∧
      (getTrackProperties ops position curve divisions lastT).closestT ≤ 1 := by
  obtain ⟨hmem, -, -⟩ := getTrackProperties_spec ops position curve divisions lastT
  obtain ⟨i, hi, hit⟩ := List.mem_map.mp hmem
  have hoffAll : ∀ j ∈ windowOffsets, -30 ≤ j ∧ j ≤ 30 := by decide
  obtain ⟨hi1, hi2⟩ := hoffAll i hi
  have hdivQ : (0 : ℚ) < (divisions : ℚ) := by exact_mod_cast lt_of_lt_of_le (by norm_num) h30
  have hcI0 : 0 ≤ ⌊lastT * (divisions : ℚ)⌋ :=
    Int.floor_nonneg.mpr (mul_nonneg h0 (le_of_lt hdivQ))
  have hcI1 : ⌊lastT * (divisions : ℚ)⌋ ≤ divisions := by
    have hle : lastT * (divisions : ℚ) ≤ (divisions : ℚ) := by nlinarith
    calc ⌊lastT * (divisions : ℚ)⌋ ≤ ⌊((divisions : ℤ) : ℚ)⌋ := Int.floor_mono hle
      _ = divisions := Int.floor_intCast divisions
  obtain ⟨hk0, hk1⟩ := wrapIndex_bounds divisions _ i h30 hcI0 hcI1 hi1 hi2
  refine ⟨wrapIndex divisions ⌊lastT * (divisions : ℚ)⌋ i, hk0, hk1, ?_, ?_, ?_⟩
  · rw [← hit]; rfl
  · rw [← hit]
    unfold candT
    exact div_nonneg (by exact_mod_cast hk0) (le_of_lt hdivQ)
  · rw [← hit]
    unfold candT
    exact (div_le_one hdivQ).mpr (by exact_mod_cast hk1)

/-- C10 counterexample: for `divisions = 1`, `lastT = 0` and the x-axis curve
with query position `(-29, 0, 0)`, the single `+= divisions` correction leaves
the window index at `-29`, so `closestT = -29` falls outside `[0, 1]`. -/
theorem c10_closestT_grid_cex :
    (getTrackProperties opsW ⟨-29, 0, 0⟩ lineCurve 1 0).closestT = -29 ∧
    ¬(0 ≤ (getTrackProperties opsW ⟨-29, 0, 0⟩ lineCurve 1 0).closestT) := by
  constructor
  · with_unfolding_all decide
  · with_unfolding_all decide

/-- C10 witness: the amended bound applied at `divisions = 30`, `lastT = 0`. -/
theorem c10_closestT_grid_witness :
    ∃ k : ℤ, 0 ≤ k ∧ k ≤ 30 ∧
      (getTrackProperties opsW ⟨0, 0, 0⟩ lineCurve 30 0).closestT = (k : ℚ) / ((30 : ℤ) : ℚ) ∧
      0 ≤ (getTrackProperties opsW ⟨0, 0, 0⟩ lineCurve 30 0).closestT ∧
      (getTrackProperties opsW ⟨0, 0, 0⟩ lineCurve 30 0).closestT ≤ 1 :=
  c10_closestT_grid opsW ⟨0, 0, 0⟩ lineCurve 30 0 (by norm_num) (by norm_num) (by norm_num)

/-- C4: `checkLapCompletion` registers a lap (appends exactly one lap time)
precisely when `previousT > 0.95`, the newly localized parameter is `< 0.05`,
and `speed > 0.5`; concretely, with `previousT = 0.97`, a localization landing
on `t = 0.02` and `speed = 1` exactly one lap is registered, and with
`speed = 0.1` none is. -/
theorem c4_lap_detection :
    (∀ (ops : RealOps) (now : ℚ) (position : Vec3) (curve : Curve) (divisions : ℤ)
        (g : GameState) (c : CarState) (speed : ℚ),
      (checkLapCompletion ops now position curve divisions g c speed).1.lapTimes.length =
        g.lapTimes.length +
          (if 19/20 < g.previousT ∧
              (getTrackProperties ops position curve divisions c.currentT).closestT < 1/20 ∧
              1/2 < speed then 1 else 0)) ∧
    (checkLapCompletion opsW 1000 ⟨1/50, 0, 0⟩ lineCurve 100
        ⟨97/100, 1, 5, [], none, 0, false⟩ { Gyro.carState with currentT := 24/25 }
        1).1.lapTimes.length = 1 ∧
    (checkLapCompletion opsW 1000 ⟨1/50, 0, 0⟩ lineCurve 100
        ⟨97/100, 1, 5, [], none, 0, false⟩ { Gyro.carState with currentT := 24/25 }
        (1/10)).1.lapTimes.length = 0 := by
  refine ⟨?_, ?_, ?_⟩
  · intro ops now position curve divisions g c speed
    unfold checkLapCompletion
    dsimp only
    split_ifs with h h2
    · simp [handleLapFinish_lapTimes, h]
    · simp [handleLapFinish_lapTimes, h]
    · simp [h]
  · with_unfolding_all decide
  · with_unfolding_all decide

/-- C7 (amended): in the gyro-enabled variants (part_010, part_013) a supplied
steer override takes precedence over the digital keys only when its magnitude
exceeds the 0.05 dead zone, in which case the turn input is the override
negated and scaled by 1.2; at or below the dead zone the digital `a`/`d` keys
determine the turn input even though an override was supplied.  In the plain
analog variant (part_015) every supplied override takes precedence (turn input
is the negated override), and in every variant the digital keys apply when no
override is supplied. -/
theorem c7_steer_override (ops : RealOps) (keys : Keys) (st : CarState) (curve : Curve)
    (divisions : ℤ) (roadHalfWidth : ℚ) (steerValue : Option ℚ) (v : ℚ) :
    (Kerb.updatePhysics ops keys st curve divisions roadHalfWidth steerValue).turnDirection =
        Kerb.turnDirection keys steerValue ∧
    (gyroPhysics.deadZone < |v| →
      Kerb.turnDirection keys (some v) = -v * gyroPhysics.maxSteering) ∧
    (|v| ≤ gyroPhysics.deadZone →
      Kerb.turnDirection keys (some v) =
        (if keys.a then 1 else 0) - (if keys.d then 1 else 0)) ∧
    Kerb.turnDirection keys none = (if keys.a then 1 else 0) - (if keys.d then 1 else 0) ∧
    Analog.turnDirection keys (some v) = -v ∧
    Analog.turnDirection keys none = (if keys.a then 1 else 0) - (if keys.d then 1 else 0) := by
  refine ⟨rfl, ?_, ?_, rfl, rfl, rfl⟩
  · intro h
    unfold Kerb.turnDirection
    dsimp only
    rw [if_pos h]
  · intro h
    unfold Kerb.turnDirection
    dsimp only
    rw [if_neg (not_lt.mpr h)]

/-- C7 counterexample: an override of 0.04 (inside `[-1, 1]`) is supplied, yet
the kerb variant's turn input follows the digital keys: it is 1 with `a` held
and 0 with no key held, and neither equals the value the override would give. -/
theorem c7_steer_override_cex :
    (Kerb.updatePhysics opsW keysA Kerb.carState constCurve 100 10
        (some (1/25))).turnDirection = 1 ∧
    (Kerb.updatePhysics opsW keysNone Kerb.carState constCurve 100 10
        (some (1/25))).turnDirection = 0 ∧
    -(1/25 : ℚ) * gyroPhysics.maxSteering ≠ 1 := by
  refine ⟨?_, ?_, ?_⟩ <;> with_unfolding_all decide

/-- C9: the code at the failing input — a stored custom track with only two
control points.  `loadTrackDefinition` hands those two points, not the default
set, to the curve constructor: the `points = DEFAULT_TRACK_POINTS` fallback at
TrackBuilder.js lines 259-261 is a dead store because line 263 builds the
curve from `smoothedPoints`. -/
theorem c9_track_fallback_bug :
    loadTrackDefinition opsW false (some [⟨0, 0, 0⟩, ⟨1, 0, 0⟩]) = [⟨0, 0, 0⟩, ⟨1, 0, 0⟩] ∧
    (loadTrackDefinition opsW false (some [⟨0, 0, 0⟩, ⟨1, 0, 0⟩])).length < 3 ∧
    loadTrackDefinition opsW false (some [⟨0, 0, 0⟩, ⟨1, 0, 0⟩]) ≠ DEFAULT_TRACK_POINTS := by
  refine ⟨?_, ?_, ?_⟩ <;> with_unfolding_all decide

/-- The sign-split clamp of CarPhysics.js lines 52-58 stays inside
`[-M/2, M]` for every pre-clamp speed and friction. -/
theorem improved_clamp_bounds (M f sp0 : ℚ) (hM : 0 ≤ M) :
    -M / 2 ≤ (if 0 < sp0 then min M (max 0 (sp0 - f))
              else if sp0 < 0 then max (-M * (1/2)) (min 0 (sp0 + f))
              else sp0) ∧
    (if 0 < sp0 then min M (max 0 (sp0 - f))
     else if sp0 < 0 then max (-M * (1/2)) (min 0 (sp0 + f))
     else sp0) ≤ M := by
  split_ifs with h1 h2
  · constructor
    · have h : (0 : ℚ) ≤ min M (max 0 (sp0 - f)) := le_min hM (le_max_left 0 _)
      linarith
    · exact min_le_left _ _
  · constructor
    · have h : -M / 2 = -M * (1/2) := by ring
      rw [h]
      exact le_max_left _ _
    · have h : max (-M * (1/2)) (min 0 (sp0 + f)) ≤ 0 := max_le (by linarith) (min_le_left 0 _)
      linarith
  · push_neg at h1 h2
    constructor <;> linarith

/-- Bounds on the improved variant's clamped speed for nonnegative `maxSpeed`. -/
theorem improved_newSpeed_bounds (keys : Keys) (st : CarState) (hM : 0 ≤ st.maxSpeed) :
    -st.maxSpeed / 2 ≤ Improved.newSpeed keys st ∧ Improved.newSpeed keys st ≤ st.maxSpeed := by
  unfold Improved.newSpeed
  dsimp only
  exact improved_clamp_bounds st.maxSpeed _ _ hM

/-- Bounds on the speed stored by the improved variant's step: zero on the
wrong-way reset, the clamped speed on free movement, or two fifths of it on a
collision. -/
theorem improved_step_speed_bounds (ops : RealOps) (keys : Keys) (st : CarState)
    (curve : Curve) (divisions : ℤ) (roadHalfWidth : ℚ) (hM : 0 ≤ st.maxSpeed) :
    -st.maxSpeed / 2 ≤ (Improved.updatePhysics ops keys st curve divisions roadHalfWidth).speed ∧
    (Improved.updatePhysics ops keys st curve divisions roadHalfWidth).speed ≤ st.maxSpeed := by
  obtain ⟨hlo, hhi⟩ := improved_newSpeed_bounds keys st hM
  have hs2 : -st.maxSpeed / 2 ≤ Improved.newSpeed keys st * (2/5) ∧
      Improved.newSpeed keys st * (2/5) ≤ st.maxSpeed := by
    obtain ⟨ha, hb⟩ :=
      scale_keeps_interval hM hlo hhi (by norm_num : (0:ℚ) ≤ 2/5) (by norm_num : (2/5:ℚ) ≤ 1)
    rw [mul_comm ((2:ℚ)/5) (Improved.newSpeed keys st)] at ha hb
    exact ⟨ha, hb⟩
  unfold Improved.updatePhysics
  dsimp only
  split_ifs <;> dsimp only
  · exact ⟨by linarith, by linarith⟩
  · exact ⟨hlo, hhi⟩
  · exact hs2
  · exact hs2

/-- C1: after any step of either cited integrator variant (CarPhysics.js and
part_013), the stored speed lies in `[-maxSpeed/2, maxSpeed]`, for every
control input, state, curve, and oracle, as long as `maxSpeed` is nonnegative
(the source's value is 2). -/
theorem c1_speed_clamped (ops : RealOps) (keys : Keys) (st : CarState) (curve : Curve)
    (divisions : ℤ) (roadHalfWidth : ℚ) (steerValue : Option ℚ) (hM : 0 ≤ st.maxSpeed) :
    (-st.maxSpeed / 2 ≤ (Improved.updatePhysics ops keys st curve divisions roadHalfWidth).speed ∧
      (Improved.updatePhysics ops keys st curve divisions roadHalfWidth).speed ≤ st.maxSpeed) ∧
    (-st.maxSpeed / 2 ≤
        (Gyro.updatePhysics ops keys st curve divisions roadHalfWidth steerValue).state.speed ∧
      (Gyro.updatePhysics ops keys st curve divisions roadHalfWidth steerValue).state.speed ≤
        st.maxSpeed) := by
  refine ⟨improved_step_speed_bounds ops keys st curve divisions roadHalfWidth hM, ?_⟩
  rw [gyro_step_speed]
  obtain ⟨c, hc0, hc1, hceq⟩ :=
    gyro_finalSpeed_factor ops keys st curve divisions roadHalfWidth steerValue
  obtain ⟨hlo, hhi⟩ := gyro_driveSpeed_bounds keys st hM
  rw [hceq]
  exact scale_keeps_interval hM hlo hhi (le_of_lt hc0) hc1

/-- C1 witness: the clamp at the source's own state (`maxSpeed = 2`) with the
throttle held. -/
theorem c1_speed_clamped_witness :
    (-Improved.carState.maxSpeed / 2 ≤
        (Improved.updatePhysics opsW { keysNone with w := true } Improved.carState constCurve
          100 10).speed ∧
      (Improved.updatePhysics opsW { keysNone with w := true } Improved.carState constCurve
          100 10).speed ≤ Improved.carState.maxSpeed) ∧
    (-Improved.carState.maxSpeed / 2 ≤
        (Gyro.updatePhysics opsW { keysNone with w := true } Improved.carState constCurve 100 10
          none).state.speed ∧
      (Gyro.updatePhysics opsW { keysNone with w := true } Improved.carState constCurve 100 10
          none).state.speed ≤ Improved.carState.maxSpeed) :=
  c1_speed_clamped opsW { keysNone with w := true } Improved.carState constCurve 100 10 none
    (by with_unfolding_all decide)

/-- C5: with no throttle, reverse, or handbrake input and the source's
constants (`friction = 0.985`, `maxSpeed = 2`), one part_013 step strictly
shrinks any nonzero speed magnitude, and from any state the speed is exactly 0
after 26204 coasting ticks (the multiplicative decay drives the speed below
the 0.005 epsilon, which snaps it to zero). -/
theorem c5_friction_convergence (ops : RealOps) (keys : Keys) (st : CarState) (curve : Curve)
    (divisions : ℤ) (roadHalfWidth : ℚ) (steerValue : Option ℚ)
    (hw : keys.w = false) (hs : keys.s = false) (hsp : keys.space = false)
    (hf : st.friction = 197/200) (hM : st.maxSpeed = 2) :
    (st.speed ≠ 0 →
      |(Gyro.updatePhysics ops keys st curve divisions roadHalfWidth steerValue).state.speed| <
        |st.speed|) ∧
    (Gyro.iterate ops keys curve divisions roadHalfWidth steerValue 26204 st).speed = 0 := by
  constructor
  · intro hne
    have h1 := gyro_step_decay ops keys st curve divisions roadHalfWidth steerValue hw hs hsp hf hM
    have h2 : 0 < |st.speed| := abs_pos.mpr hne
    linarith
  · have hiter : Gyro.iterate ops keys curve divisions roadHalfWidth steerValue 26204 st =
        Gyro.iterate ops keys curve divisions roadHalfWidth steerValue 26203
          (Gyro.updatePhysics ops keys st curve divisions roadHalfWidth steerValue).state :=
      gyro_iterate_front ops keys curve divisions roadHalfWidth steerValue 26203 st
    have hst1f : (Gyro.updatePhysics ops keys st curve divisions roadHalfWidth
        steerValue).state.friction = (197 : ℚ)/200 := hf
    have hst1M : (Gyro.updatePhysics ops keys st curve divisions roadHalfWidth
        steerValue).state.maxSpeed = (2 : ℚ) := hM
    have hb := gyro_step_speed_le_two ops keys st curve divisions roadHalfWidth steerValue hM
    have hdecay := gyro_iterate_decay ops keys curve divisions roadHalfWidth steerValue
      hw hs hsp 26202
      (Gyro.updatePhysics ops keys st curve divisions roadHalfWidth steerValue).state hst1f hst1M
    have husmall : |(Gyro.iterate ops keys curve divisions roadHalfWidth steerValue 26202
        (Gyro.updatePhysics ops keys st curve divisions roadHalfWidth
          steerValue).state).speed| < 1/200 := by
      have hp : (0 : ℚ) ≤ (197/200 : ℚ) ^ 26202 := by positivity
      have hstep : ((197 : ℚ)/200) ^ 26202 *
          |(Gyro.updatePhysics ops keys st curve divisions roadHalfWidth
            steerValue).state.speed| ≤ ((197 : ℚ)/200) ^ 26202 * 2 := by nlinarith
      calc |(Gyro.iterate ops keys curve divisions roadHalfWidth steerValue 26202
              (Gyro.updatePhysics ops keys st curve divisions roadHalfWidth
                steerValue).state).speed|
          ≤ ((197 : ℚ)/200) ^ 26202 *
              |(Gyro.updatePhysics ops keys st curve divisions roadHalfWidth
                steerValue).state.speed| := hdecay
        _ ≤ ((197 : ℚ)/200) ^ 26202 * 2 := hstep
        _ < 1/200 := frictionPow_small
    have hconsts := gyro_iterate_consts ops keys curve divisions roadHalfWidth steerValue 26202
      (Gyro.updatePhysics ops keys st curve divisions roadHalfWidth steerValue).state
    have hsucc : Gyro.iterate ops keys curve divisions roadHalfWidth steerValue 26203
        (Gyro.updatePhysics ops keys st curve divisions roadHalfWidth steerValue).state =
        (Gyro.updatePhysics ops keys
          (Gyro.iterate ops keys curve divisions roadHalfWidth steerValue 26202
            (Gyro.updatePhysics ops keys st curve divisions roadHalfWidth steerValue).state)
          curve divisions roadHalfWidth steerValue).state :=
      gyro_iterate_succ ops keys curve divisions roadHalfWidth steerValue 26202
        (Gyro.updatePhysics ops keys st curve divisions roadHalfWidth steerValue).state
    rw [hiter, hsucc]
    exact gyro_step_snap ops keys _ curve divisions roadHalfWidth steerValue hw hs hsp
      (hconsts.1.trans hst1f) (hconsts.2.trans hst1M) husmall

/-- C5 witness: the strict decrease and exact-zero convergence at the
source's own state coasting from speed 1. -/
theorem c5_friction_convergence_witness :
    (({ Gyro.carState with speed := 1 } : CarState).speed ≠ 0 →
      |(Gyro.updatePhysics opsW keysNone { Gyro.carState with speed := 1 } constCurve 100 10
          none).state.speed| < |({ Gyro.carState with speed := 1 } : CarState).speed|) ∧
    (Gyro.iterate opsW keysNone constCurve 100 10 none 26204
        { Gyro.carState with speed := 1 }).speed = 0 :=
  c5_friction_convergence opsW keysNone { Gyro.carState with speed := 1 } constCurve 100 10 none
    rfl rfl rfl rfl rfl

/-- C6: the part_013 step sets the wrong-way flag exactly when the dot product
of the car's forward vector with the tangent at the localized parameter is
below -0.5 while the updated speed exceeds 0.5, and the stored speed is the
drive speed times 0.8 exactly when the flag is set (times the independent
boundary factor 0.95 when the boundary is hit); otherwise the flag is cleared
and no wrong-way factor is applied. -/
theorem c6_wrong_way (ops : RealOps) (keys : Keys) (st : CarState) (curve : Curve)
    (divisions : ℤ) (roadHalfWidth : ℚ) (steerValue : Option ℚ) :
    ((Gyro.updatePhysics ops keys st curve divisions roadHalfWidth steerValue).state.isWrongWay =
        true ↔
      Gyro.wrongDot ops keys st curve divisions steerValue < -(1/2) ∧
        1/2 < Gyro.driveSpeed keys st) ∧
    (Gyro.updatePhysics ops keys st curve divisions roadHalfWidth steerValue).state.speed =
      (if Gyro.isWrongWayB ops keys st curve divisions steerValue then
        Gyro.driveSpeed keys st * (4/5)
       else Gyro.driveSpeed keys st) *
        (if Gyro.hitBoundary ops keys st curve divisions roadHalfWidth steerValue then
          (19/20 : ℚ)
         else 1) := by
  constructor
  · show Gyro.isWrongWayB ops keys st curve divisions steerValue = true ↔ _
    unfold Gyro.isWrongWayB
    rw [Bool.and_eq_true, decide_eq_true_eq, decide_eq_true_eq]
  · rw [gyro_step_speed]
    unfold Gyro.finalSpeed Gyro.speedAfterWrongWay
    split_ifs <;> ring

/-- C8 (amended): the angle difference driving the drift coupling is
normalized into `[-pi, pi]` before being scaled by `1 - grip` (for the real,
positive, `Math.PI`), and the stored velocity angle is the previous one plus
that normalized difference scaled; the heading and velocity angles themselves
are not re-normalized by the step and may lie outside `(-pi, pi]`. -/
theorem c8_drift_normalized (ops : RealOps) (keys : Keys) (st : CarState) (curve : Curve)
    (divisions : ℤ) (roadHalfWidth : ℚ) (steerValue : Option ℚ) (hpi : 0 < ops.pi) :
    -ops.pi ≤ normAngle ops.pi (Gyro.rotation1 keys st steerValue - st.velocityAngle) ∧
    normAngle ops.pi (Gyro.rotation1 keys st steerValue - st.velocityAngle) ≤ ops.pi ∧
    (Gyro.updatePhysics ops keys st curve divisions roadHalfWidth steerValue).state.velocityAngle =
      st.velocityAngle +
        normAngle ops.pi (Gyro.rotation1 keys st steerValue - st.velocityAngle) *
          (1 - st.grip) := by
  obtain ⟨h1, h2⟩ :=
    normAngle_bounds ops.pi (Gyro.rotation1 keys st steerValue - st.velocityAngle) hpi
  exact ⟨h1, h2, rfl⟩

/-- C8 witness: the normalized drift difference at the source's own state. -/
theorem c8_drift_normalized_witness :
    -opsW.pi ≤ normAngle opsW.pi (Gyro.rotation1 keysNone Gyro.carState none -
        Gyro.carState.velocityAngle) ∧
    normAngle opsW.pi (Gyro.rotation1 keysNone Gyro.carState none -
        Gyro.carState.velocityAngle) ≤ opsW.pi ∧
    (Gyro.updatePhysics opsW keysNone Gyro.carState constCurve 100 10
        none).state.velocityAngle =
      Gyro.carState.velocityAngle +
        normAngle opsW.pi (Gyro.rotation1 keysNone Gyro.carState none -
            Gyro.carState.velocityAngle) * (1 - Gyro.carState.grip) :=
  c8_drift_normalized opsW keysNone Gyro.carState constCurve 100 10 none
    (by with_unfolding_all decide)

/-- C8 counterexample: a state whose heading and velocity angles are 4 radians
passes through a part_013 step unchanged (no input, zero speed), so both
stored angles stay above `pi` — with the rational stand-in `pi = 355/113`,
which lies in `(3, 3.15)` like the real `Math.PI`, the step's output violates
the claimed normalization to `(-pi, pi]`. -/
theorem c8_drift_normalized_cex :
    (Gyro.updatePhysics opsW keysNone
        { Gyro.carState with rotationAngle := 4, velocityAngle := 4 } constCurve 100 10
        none).state.rotationAngle = 4 ∧
    (Gyro.updatePhysics opsW keysNone
        { Gyro.carState with rotationAngle := 4, velocityAngle := 4 } constCurve 100 10
        none).state.velocityAngle = 4 ∧
    3 < opsW.pi ∧ opsW.pi < 63/20 ∧ ¬((4 : ℚ) ≤ opsW.pi) := by
  refine ⟨?_, ?_, ?_, ?_, ?_⟩ <;> with_unfolding_all decide

/-- C2: on a tick whose pre-collision lateral distance exceeds the road
half-width (part_015's hard-clamp policy) or the half-width plus the 1.5 kerb
width (part_010's lerp policy), the step multiplies speed by the collision
penalty factor (0.5, resp. 0.95) and corrects the position toward the track
edge: the hard clamp puts the car at the closest point plus an offset along
the binormal of magnitude at most the road half-width, and the lerp moves the
car strictly toward the clamped edge point (squared distance drops to 81%). -/
theorem c2_boundary_containment (ops : RealOps) (keys : Keys) (st : CarState) (curve : Curve)
    (divisions : ℤ) (steerValue : Option ℚ) (roadHalfWidth : ℚ) (hW : 1/10 ≤ roadHalfWidth) :
    (roadHalfWidth < |(Analog.props ops keys st curve divisions steerValue).lateralDistance| →
      (Analog.updatePhysics ops keys st curve divisions roadHalfWidth steerValue).speed =
        Analog.speedAfterWrongWay ops keys st curve divisions steerValue * (1/2) ∧
      ∃ c : ℚ, |c| ≤ roadHalfWidth ∧
        (Analog.updatePhysics ops keys st curve divisions roadHalfWidth steerValue).position =
          Vec3.add (Analog.props ops keys st curve divisions steerValue).closestPoint
            (Vec3.smul c (Analog.props ops keys st curve divisions steerValue).binormal)) ∧
    (roadHalfWidth + 3/2 <
        |(Kerb.props ops keys st curve divisions steerValue).lateralDistance| →
      (Kerb.updatePhysics ops keys st curve divisions roadHalfWidth steerValue).state.speed =
        Kerb.speedAfterKerb ops keys st curve divisions roadHalfWidth steerValue * (19/20) ∧
      Vec3.distanceToSquared
          (Kerb.updatePhysics ops keys st curve divisions roadHalfWidth
            steerValue).state.position
          (Kerb.clampedPosition ops keys st curve divisions roadHalfWidth steerValue) =
        (81/100) * Vec3.distanceToSquared st.position
          (Kerb.clampedPosition ops keys st curve divisions roadHalfWidth steerValue) ∧
      (st.position ≠ Kerb.clampedPosition ops keys st curve divisions roadHalfWidth steerValue →
        Vec3.distanceToSquared
            (Kerb.updatePhysics ops keys st curve divisions roadHalfWidth
              steerValue).state.position
            (Kerb.clampedPosition ops keys st curve divisions roadHalfWidth steerValue) <
          Vec3.distanceToSquared st.position
            (Kerb.clampedPosition ops keys st curve divisions roadHalfWidth steerValue))) := by
  constructor
  · intro hA
    have hbit : Analog.hitBoundary ops keys st curve divisions roadHalfWidth steerValue = true :=
      decide_eq_true hA
    constructor
    · show Analog.finalSpeed ops keys st curve divisions roadHalfWidth steerValue = _
      unfold Analog.finalSpeed
      rw [hbit]
      simp
    · refine ⟨mathSign (Analog.props ops keys st curve divisions steerValue).lateralDistance *
        (roadHalfWidth - 1/10), ?_, ?_⟩
      · rw [abs_mul, abs_of_nonneg (by linarith : (0:ℚ) ≤ roadHalfWidth - 1/10)]
        have h1 := mathSign_abs_le_one
          (Analog.props ops keys st curve divisions steerValue).lateralDistance
        nlinarith [abs_nonneg
          (mathSign (Analog.props ops keys st curve divisions steerValue).lateralDistance)]
      · show Analog.finalPosition ops keys st curve divisions roadHalfWidth steerValue = _
        have hfp : Analog.finalPosition ops keys st curve divisions roadHalfWidth steerValue =
            Analog.clampedPosition ops keys st curve divisions roadHalfWidth steerValue := by
          unfold Analog.finalPosition
          rw [hbit]
          simp
        rw [hfp]
        rfl
  · intro hK
    have hbit : Kerb.hitBoundary ops keys st curve divisions roadHalfWidth steerValue = true :=
      decide_eq_true hK
    have hfp : Kerb.finalPosition ops keys st curve divisions roadHalfWidth steerValue =
        Vec3.lerp st.position
          (Kerb.clampedPosition ops keys st curve divisions roadHalfWidth steerValue) (1/10) := by
      unfold Kerb.finalPosition
      rw [hbit]
      simp [tickKerbTimer_position]
    refine ⟨?_, ?_, ?_⟩
    · show Kerb.finalSpeed ops keys st curve divisions roadHalfWidth steerValue = _
      unfold Kerb.finalSpeed
      rw [hbit]
      simp
    · show Vec3.distanceToSquared
          (Kerb.finalPosition ops keys st curve divisions roadHalfWidth steerValue) _ = _
      rw [hfp, lerp_distSq]
    · intro hne
      have hd : Vec3.distanceToSquared st.position
          (Kerb.clampedPosition ops keys st curve divisions roadHalfWidth steerValue) ≠ 0 :=
        fun h => hne ((distanceToSquared_eq_zero_iff _ _).mp h)
      have hd0 : 0 < Vec3.distanceToSquared st.position
          (Kerb.clampedPosition ops keys st curve divisions roadHalfWidth steerValue) :=
        lt_of_le_of_ne (distanceToSquared_nonneg _ _) (Ne.symm hd)
      show Vec3.distanceToSquared
          (Kerb.finalPosition ops keys st curve divisions roadHalfWidth steerValue) _ < _
      rw [hfp, lerp_distSq]
      linarith

/-- C2 witness: both collision responses fire at a car 20 units off the
centerline with road half-width 10. -/
theorem c2_boundary_containment_witness :
    ((Analog.updatePhysics opsW keysNone stC2 constCurve 100 10 none).speed =
        Analog.speedAfterWrongWay opsW keysNone stC2 constCurve 100 none * (1/2) ∧
      ∃ c : ℚ, |c| ≤ 10 ∧
        (Analog.updatePhysics opsW keysNone stC2 constCurve 100 10 none).position =
          Vec3.add (Analog.props opsW keysNone stC2 constCurve 100 none).closestPoint
            (Vec3.smul c (Analog.props opsW keysNone stC2 constCurve 100 none).binormal)) ∧
    ((Kerb.updatePhysics opsW keysNone stC2 constCurve 100 10 none).state.speed =
        Kerb.speedAfterKerb opsW keysNone stC2 constCurve 100 10 none * (19/20) ∧
      Vec3.distanceToSquared
          (Kerb.updatePhysics opsW keysNone stC2 constCurve 100 10 none).state.position
          (Kerb.clampedPosition opsW keysNone stC2 constCurve 100 10 none) =
        (81/100) * Vec3.distanceToSquared stC2.position
          (Kerb.clampedPosition opsW keysNone stC2 constCurve 100 10 none) ∧
      (stC2.position ≠ Kerb.clampedPosition opsW keysNone stC2 constCurve 100 10 none →
        Vec3.distanceToSquared
            (Kerb.updatePhysics opsW keysNone stC2 constCurve 100 10 none).state.position
            (Kerb.clampedPosition opsW keysNone stC2 constCurve 100 10 none) <
          Vec3.distanceToSquared stC2.position
            (Kerb.clampedPosition opsW keysNone stC2 constCurve 100 10 none))) :=
  ⟨(c2_boundary_containment opsW keysNone stC2 constCurve 100 none 10 (by norm_num)).1
      (by with_unfolding_all decide),
    (c2_boundary_containment opsW keysNone stC2 constCurve 100 none 10 (by norm_num)).2
      (by with_unfolding_all decide)⟩

end F1Max
